import Mathlib

/-! # TSIP packet decoder: `src/src/lib/tsip.cpp`

A shallow embedding of the byte framer (`tsip::encode`), the report dispatcher
(`tsip::update_report`), the field decoders (`b2_to_uint16`, `b4_to_uint32`,
`b4_to_single`, `b8_to_double`) and `tsip::init_rpt`.

Conventions of the embedding:

* a byte (`UINT8`) is a `Nat`; the callers feed values below 256;
* `int` is 32 bits wide (the source targets x86, see its endianness notes), so a
  sum of shifted bytes converted to `UINT32` is taken modulo `2 ^ 32` and one
  converted to `UINT16` modulo `2 ^ 16`;
* the header `tsip.h` is not part of the sources: its constants and `sizeof`
  values are fields of `Env`, its union and record layouts follow the
  specification;
* floating-point values are represented by their IEEE-754 bit patterns;
* `printf` output is returned as a list of `Msg`;
* a store outside an object and a read of bytes that were never assigned are undefined
  behaviour: the local unions of the conversion routines record both, and the outcome
  of a call that runs into either carries `undefined = true`. Its other components
  then describe only the run in which the stray store hits nothing and the unassigned
  bytes hold `Env.uninit`; a statement about what the program returns or leaves behind
  is made together with `undefined = false`.
-/

namespace Tsip

/-- Everything `tsip.cpp` takes from `tsip.h` and from the host: the framing bytes,
the buffer capacity, the report codes used as `case` labels, the `sizeof` of each
report record, and `uninit`, a stand-in for the content of a byte of automatic storage
that was never written (indeterminate in the program; an outcome with
`undefined = false` does not depend on it, see `encode_uninit`). -/
structure Env where
  DLE : Nat
  ETX : Nat
  MAX_DATA : Nat
  REPORT_ECEF_POSITION_S : Nat
  REPORT_ECEF_POSITION_D : Nat
  REPORT_ECEF_VELOCITY : Nat
  REPORT_SW_VERSION : Nat
  REPORT_SINGLE_POSITION : Nat
  REPORT_DOUBLE_POSITION : Nat
  REPORT_IO_OPTIONS : Nat
  REPORT_ENU_VELOCITY : Nat
  REPORT_SUPER : Nat
  REPORT_SUPER_UTC_GPS_TIME : Nat
  REPORT_SUPER_PRIMARY_TIME : Nat
  REPORT_SUPER_SECONDARY_TIME : Nat
  sizeof_ecef_position_s : Nat
  sizeof_ecef_position_d : Nat
  sizeof_ecef_velocity : Nat
  sizeof_sw_version : Nat
  sizeof_single_position : Nat
  sizeof_io_options : Nat
  sizeof_enu_velocity : Nat
  sizeof_utc_gps_time : Nat
  sizeof_primary_time : Nat
  sizeof_secondary_time : Nat
  sizeof_unknown_raw_data : Nat
  uninit : Nat
deriving DecidableEq, Repr

/-- In C++ `sizeof` of a complete object type is at least 1. -/
def Env.sizes_pos (k : Env) : Prop :=
  0 < k.sizeof_ecef_position_s ∧ 0 < k.sizeof_ecef_position_d ∧
  0 < k.sizeof_ecef_velocity ∧ 0 < k.sizeof_sw_version ∧
  0 < k.sizeof_single_position ∧ 0 < k.sizeof_io_options ∧
  0 < k.sizeof_enu_velocity ∧ 0 < k.sizeof_utc_gps_time ∧
  0 < k.sizeof_primary_time ∧ 0 < k.sizeof_secondary_time ∧
  0 < k.sizeof_unknown_raw_data

instance (k : Env) : Decidable k.sizes_pos := by
  unfold Env.sizes_pos; infer_instance

/-- The nine `case` labels of the outer `switch` of `update_report`, in source order. -/
def Env.outer_labels (k : Env) : List Nat :=
  [k.REPORT_ECEF_POSITION_S, k.REPORT_ECEF_POSITION_D, k.REPORT_ECEF_VELOCITY,
   k.REPORT_SW_VERSION, k.REPORT_SINGLE_POSITION, k.REPORT_DOUBLE_POSITION,
   k.REPORT_IO_OPTIONS, k.REPORT_ENU_VELOCITY, k.REPORT_SUPER]

/-- The three `case` labels of the inner `switch` of `update_report`, in source order. -/
def Env.inner_labels (k : Env) : List Nat :=
  [k.REPORT_SUPER_UTC_GPS_TIME, k.REPORT_SUPER_PRIMARY_TIME, k.REPORT_SUPER_SECONDARY_TIME]

/-- A C++ `switch` does not compile with two equal `case` labels. -/
def Env.labels_distinct (k : Env) : Prop :=
  k.outer_labels.Nodup ∧ k.inner_labels.Nodup

instance (k : Env) : Decidable k.labels_distinct := by
  unfold Env.labels_distinct; infer_instance

/-- The constants of the Trimble Standard Interface Protocol (the source comments
name the composite reports `8f-a2`, `8f-ab`, `8f-ac`), with a 128-byte frame
buffer and the packed sizes of the TSIP reports as record sizes. -/
def thunderbolt : Env where
  DLE := 0x10
  ETX := 0x03
  MAX_DATA := 128
  REPORT_ECEF_POSITION_S := 0x42
  REPORT_ECEF_POSITION_D := 0x83
  REPORT_ECEF_VELOCITY := 0x43
  REPORT_SW_VERSION := 0x45
  REPORT_SINGLE_POSITION := 0x4A
  REPORT_DOUBLE_POSITION := 0x84
  REPORT_IO_OPTIONS := 0x55
  REPORT_ENU_VELOCITY := 0x56
  REPORT_SUPER := 0x8F
  REPORT_SUPER_UTC_GPS_TIME := 0xA2
  REPORT_SUPER_PRIMARY_TIME := 0xAB
  REPORT_SUPER_SECONDARY_TIME := 0xAC
  sizeof_ecef_position_s := 16
  sizeof_ecef_position_d := 36
  sizeof_ecef_velocity := 20
  sizeof_sw_version := 10
  sizeof_single_position := 20
  sizeof_io_options := 4
  sizeof_enu_velocity := 20
  sizeof_utc_gps_time := 1
  sizeof_primary_time := 16
  sizeof_secondary_time := 67
  sizeof_unknown_raw_data := 128
  uninit := 0

/-- The values of `m_state`: the four enumerators used by `encode`, and any other
value the variable could hold (handled by the `default:` label). -/
inductive FrameState where
  | START
  | FRAME
  | DATA
  | DATA_DLE
  | invalid (v : Nat)
deriving DecidableEq, Repr

/-- The bit-field view `m_updated.report` of the updated-flag set; `m_updated.value = 0`
clears every flag. -/
structure Updated where
  ecef_position_s : Bool
  ecef_position_d : Bool
  ecef_velocity : Bool
  sw_version : Bool
  single_position : Bool
  double_position : Bool
  io_options : Bool
  enu_velocity : Bool
  utc_gps_time : Bool
  primary_time : Bool
  secondary_time : Bool
  unknown : Bool
deriving DecidableEq, Repr

/-- The updated-flag set after `m_updated.value = 0`. -/
def Updated.clear : Updated :=
  ⟨false, false, false, false, false, false, false, false, false, false, false, false⟩

/-- A report record: the `valid` flag and the `report` fields. -/
structure Rec (α : Type) where
  valid : Bool
  report : α
deriving DecidableEq, Repr

/-- Modelled from the spec: the record type of the simple ECEF position report is
declared in `tsip.h`; the specification gives `int32 X, int32 Y, int32 Z,
uint32 time-of-fix`. -/
structure EcefPositionS where
  x : Int
  y : Int
  z : Int
  time_of_fix : Nat
deriving DecidableEq, Repr

/-- The storage of a record whose fields `tsip.cpp` never names (they were filled by
the `memcpy` that is commented out): its bytes. -/
abbrev RawReport := List Nat

/-- The field of the UTC/GPS time record written by `update_report`:
`report.bits.value`. -/
structure UtcGpsTime where
  bits_value : Nat
deriving DecidableEq, Repr

/-- The fields of `m_primary_time.report` (`flags_value` is `flags.value`). -/
structure PrimaryTime where
  seconds_of_week : Nat
  week_number : Nat
  utc_offset : Nat
  flags_value : Nat
  seconds : Nat
  minutes : Nat
  hours : Nat
  day : Nat
  month : Nat
  year : Nat
deriving DecidableEq, Repr

/-- The fields of `m_secondary_time.report`; the `SINGLE` and `DOUBLE` fields hold
IEEE-754 bit patterns. -/
structure SecondaryTime where
  receiver_mode : Nat
  disciplining_mode : Nat
  self_survey_progress : Nat
  holdover_duration : Nat
  critical_alarms_value : Nat
  minor_alarms_value : Nat
  gps_decoding_status : Nat
  disciplining_activity : Nat
  spare_status1 : Nat
  spare_status2 : Nat
  pps_offset : Nat
  tenMHz_offset : Nat
  dac_value : Nat
  dac_voltage : Nat
  temperature : Nat
  latitude : Nat
  longitude : Nat
  altitude : Nat
  spare : List Nat
deriving DecidableEq, Repr

/-- The unknown record: `m_unknown.report.raw.data`. -/
structure Unknown where
  raw_data : List Nat
deriving DecidableEq, Repr

/-- The member variables of class `tsip` that `tsip.cpp` reads or writes.
`m_report` is the byte array `m_report.raw.data` (capacity `MAX_DATA`). -/
structure State where
  m_state : FrameState
  m_report_length : Nat
  m_report : List Nat
  m_command : List Nat
  m_updated : Updated
  m_ecef_position_s : Rec EcefPositionS
  m_ecef_position_d : Rec RawReport
  m_ecef_velocity : Rec RawReport
  m_sw_version : Rec RawReport
  m_single_position : Rec RawReport
  m_double_position : Rec RawReport
  m_io_options : Rec RawReport
  m_enu_velocity : Rec RawReport
  m_utc_gps_time : Rec UtcGpsTime
  m_primary_time : Rec PrimaryTime
  m_secondary_time : Rec SecondaryTime
  m_unknown : Rec Unknown
  verbose : Bool
  debug : Bool
deriving DecidableEq, Repr

/-- The diagnostics printed by `encode` and `update_report`. -/
inductive Msg where
  | waiting
  | found_report (code subcode : Nat)
  | command_buffer (bytes : List Nat)
  | report_buffer (bytes : List Nat)
deriving DecidableEq, Repr

/-- The result of one call: the value returned, the object afterwards, the index of
`m_report.raw.data` the call stored a byte at (if it stored one), the output, and
whether the call executed a statement whose behaviour C++ leaves undefined (a store
outside an object, a read of bytes that were never assigned). When `undefined` is set
the program may do anything, including not return; the other components then describe
the one run in which the stray store hits nothing and the unassigned bytes hold
`Env.uninit`. -/
structure Outcome where
  ret : Int
  state : State
  wrote : Option Nat
  out : List Msg
  undefined : Bool := false
deriving DecidableEq, Repr

/-! ## Views of the frame buffer -/

/-- The byte `m_report.raw.data[i]`. -/
def raw_data (s : State) (i : Nat) : Nat := s.m_report.getD i 0

/-- Modelled from the spec: the union `m_report` is declared in `tsip.h`; byte 0 of
the frame is the report code (`m_report.report.code`). -/
def report_code (s : State) : Nat := raw_data s 0

/-- Modelled from the spec: `m_report.report.data` is the frame after the code byte. -/
def report_data (s : State) (i : Nat) : Nat := raw_data s (1 + i)

/-- Modelled from the spec: byte 1 of the frame is the sub-code
(`m_report.extended.subcode`). -/
def extended_subcode (s : State) : Nat := raw_data s 1

/-- Modelled from the spec: `m_report.extended.data` is the frame after the sub-code
byte, "report-specific fields begin at payload byte 2". -/
def extended_data (s : State) (i : Nat) : Nat := raw_data s (2 + i)

/-! ## Field decoder -/

/-- The C expression `x << n` on a non-negative value. -/
def shl (x n : Nat) : Nat := x * 2 ^ n

/-- An `int` result stored into a signed 32-bit field. -/
def to_int32 (v : Nat) : Int :=
  if v % 2 ^ 32 < 2 ^ 31 then ((v % 2 ^ 32 : Nat) : Int) else ((v % 2 ^ 32 : Nat) : Int) - 2 ^ 32

/-- `tsip::b2_to_uint16`. -/
def b2_to_uint16 (s : State) (bb : Nat) (r_code : Char) : Nat :=
  if r_code = 'r' then
    (shl (report_data s bb) 8 + report_data s (bb + 1)) % 2 ^ 16
  else if r_code = 'e' then
    (shl (extended_data s bb) 8 + extended_data s (bb + 1)) % 2 ^ 16
  else 0

/-- `tsip::b4_to_uint32`. -/
def b4_to_uint32 (s : State) (bb : Nat) (r_code : Char) : Nat :=
  if r_code = 'r' then
    (shl (report_data s bb) 24 + shl (report_data s (bb + 1)) 16
      + shl (report_data s (bb + 2)) 8 + report_data s (bb + 3)) % 2 ^ 32
  else if r_code = 'e' then
    (shl (extended_data s bb) 24 + shl (extended_data s (bb + 1)) 16
      + shl (extended_data s (bb + 2)) 8 + extended_data s (bb + 3)) % 2 ^ 32
  else 0

/-- Modelled from the spec: `SINGLE` is declared in `tsip.h`; a 4-byte
single-precision float. -/
def sizeof_SINGLE : Nat := 4

/-- Modelled from the spec: `DOUBLE` is declared in `tsip.h`; an 8-byte
double-precision float. -/
def sizeof_DOUBLE : Nat := 8

/-- A local union of a conversion routine: its bytes `cdata`, the indices of `cdata`
that have been assigned so far, and whether an assignment went to an index past the
end of the union. -/
structure Scratch where
  cdata : List Nat
  assigned : List Nat
  overrun : Bool
deriving DecidableEq, Repr

/-- The assignment `cdata[j] = v`. An index past the end of the union is a store
outside the object: it is recorded in `overrun`, and what it destroys on the stack is
not represented. -/
def Scratch.assign (m : Scratch) (j v : Nat) : Scratch :=
  { cdata := m.cdata.set j v, assigned := m.assigned ++ [j],
    overrun := m.overrun || decide (m.cdata.length ≤ j) }

/-- The union before the loop: `n` bytes nobody has written. Their content is
indeterminate; `Env.uninit` stands for it, and `Scratch.defined` tells whether a value
read from the union depends on it. -/
def Scratch.fresh (k : Env) (n : Nat) : Scratch :=
  { cdata := List.replicate n k.uninit, assigned := [], overrun := false }

/-- Reading the value of the union is defined: no store went past its end and every
one of its bytes has been assigned. -/
def Scratch.defined (m : Scratch) : Bool :=
  !m.overrun && (List.range m.cdata.length).all (fun i => decide (i ∈ m.assigned))

/-- The value of the union read on the little-endian host: byte `i` has weight
`256 ^ i`. -/
def le_value : List Nat → Nat
  | [] => 0
  | b :: bs => b + 256 * le_value bs

/-- The local union of `tsip::b4_to_single` at `return`: the loop
`for (i=0, j=sizeof(SINGLE); i<sizeof(SINGLE); i++, j--) cdata[j] = data[bb+i]`. -/
def b4_to_single_union (k : Env) (s : State) (bb : Nat) (r_code : Char) : Scratch :=
  if r_code = 'r' then
    (List.range sizeof_SINGLE).foldl
      (fun m i => m.assign (sizeof_SINGLE - i) (report_data s (bb + i)))
      (Scratch.fresh k sizeof_SINGLE)
  else if r_code = 'e' then
    (List.range sizeof_SINGLE).foldl
      (fun m i => m.assign (sizeof_SINGLE - i) (extended_data s (bb + i)))
      (Scratch.fresh k sizeof_SINGLE)
  else Scratch.fresh k sizeof_SINGLE

/-- `tsip::b4_to_single`: the bit pattern of `sgl.value`, meaningful only when
`(b4_to_single_union k s bb r_code).defined` holds. -/
def b4_to_single (k : Env) (s : State) (bb : Nat) (r_code : Char) : Nat :=
  le_value (b4_to_single_union k s bb r_code).cdata

/-- The local union of `tsip::b8_to_double` at `return`: the loop
`for (i=0, j=sizeof(DOUBLE)-1; i<sizeof(DOUBLE); i++, j--) cdata[j] = data[bb+i]`. -/
def b8_to_double_union (k : Env) (s : State) (bb : Nat) (r_code : Char) : Scratch :=
  if r_code = 'r' then
    (List.range sizeof_DOUBLE).foldl
      (fun m i => m.assign (sizeof_DOUBLE - 1 - i) (report_data s (bb + i)))
      (Scratch.fresh k sizeof_DOUBLE)
  else if r_code = 'e' then
    (List.range sizeof_DOUBLE).foldl
      (fun m i => m.assign (sizeof_DOUBLE - 1 - i) (extended_data s (bb + i)))
      (Scratch.fresh k sizeof_DOUBLE)
  else Scratch.fresh k sizeof_DOUBLE

/-- `tsip::b8_to_double`: the bit pattern of `dbl.value`, meaningful only when
`(b8_to_double_union k s bb r_code).defined` holds. -/
def b8_to_double (k : Env) (s : State) (bb : Nat) (r_code : Char) : Nat :=
  le_value (b8_to_double_union k s bb r_code).cdata

/-! ## Report dispatcher -/

/-- The effect of a `switch` of `update_report`: the object afterwards, the local
`rlen`, and whether a statement it executed has undefined behaviour. -/
structure Switched where
  state : State
  rlen : Nat
  undefined : Bool

/-- All seven conversions through a local union made by
`case REPORT_SUPER_SECONDARY_TIME` (four `b4_to_single`, three `b8_to_double`) have a
result the language defines. -/
def secondary_time_conversions_defined (k : Env) (s : State) : Bool :=
  (b4_to_single_union k s 15 'e').defined && (b4_to_single_union k s 19 'e').defined &&
  (b4_to_single_union k s 27 'e').defined && (b4_to_single_union k s 31 'e').defined &&
  (b8_to_double_union k s 35 'e').defined && (b8_to_double_union k s 43 'e').defined &&
  (b8_to_double_union k s 51 'e').defined

/-- The body of a `default:` label of `update_report` (the inner and the outer one
have the same statements). `src` and `dst` are only read by the `memcpy` that is
commented out, so they are not represented; the second component is `rlen`. -/
def unknown_case (k : Env) (s : State) : State × Nat :=
  ({ s with m_updated := { s.m_updated with unknown := true },
            m_unknown := { s.m_unknown with valid := true } },
   k.sizeof_unknown_raw_data)

/-- The inner `switch (m_report.extended.subcode)` of `update_report`, up to the
`break` that leaves it. -/
def super_switch (k : Env) (s : State) : Switched :=
  if extended_subcode s = k.REPORT_SUPER_UTC_GPS_TIME then
    ⟨{ s with m_updated := { s.m_updated with utc_gps_time := true },
              m_utc_gps_time := { valid := true,
                                  report := { bits_value := extended_data s 0 } } },
     k.sizeof_utc_gps_time, false⟩
  else if extended_subcode s = k.REPORT_SUPER_PRIMARY_TIME then
    ⟨{ s with m_updated := { s.m_updated with primary_time := true },
              m_primary_time :=
                { valid := true,
                  report :=
                    { seconds_of_week := b4_to_uint32 s 0 'e'
                      week_number := b2_to_uint16 s 4 'e'
                      utc_offset := b2_to_uint16 s 6 'e'
                      flags_value := extended_data s 8
                      seconds := extended_data s 9
                      minutes := extended_data s 10
                      hours := extended_data s 11
                      day := extended_data s 12
                      month := extended_data s 13
                      year := b2_to_uint16 s 14 'e' } } },
     k.sizeof_primary_time, false⟩
  else if extended_subcode s = k.REPORT_SUPER_SECONDARY_TIME then
    ⟨{ s with m_updated := { s.m_updated with secondary_time := true },
              m_secondary_time :=
                { valid := true,
                  report :=
                    { receiver_mode := extended_data s 0
                      disciplining_mode := extended_data s 1
                      self_survey_progress := extended_data s 2
                      holdover_duration := b4_to_uint32 s 3 'e'
                      critical_alarms_value := b2_to_uint16 s 7 'e'
                      minor_alarms_value := b2_to_uint16 s 9 'e'
                      gps_decoding_status := extended_data s 11
                      disciplining_activity := extended_data s 12
                      spare_status1 := extended_data s 13
                      spare_status2 := extended_data s 14
                      pps_offset := b4_to_single k s 15 'e'
                      tenMHz_offset := b4_to_single k s 19 'e'
                      dac_value := b4_to_uint32 s 23 'e'
                      dac_voltage := b4_to_single k s 27 'e'
                      temperature := b4_to_single k s 31 'e'
                      latitude := b8_to_double k s 35 'e'
                      longitude := b8_to_double k s 43 'e'
                      altitude := b8_to_double k s 51 'e'
                      spare := [extended_data s 59, extended_data s 60, extended_data s 61,
                                extended_data s 62, extended_data s 63, extended_data s 64,
                                extended_data s 65, extended_data s 66] } } },
     k.sizeof_secondary_time, !secondary_time_conversions_defined k s⟩
  else ⟨(unknown_case k s).1, (unknown_case k s).2, false⟩

/-- The outer `switch (m_report.report.code)` of `update_report`. After the inner
`switch` of `case REPORT_SUPER:` there is no `break`, so control continues with the
statements of the outer `default:` label. -/
def report_switch (k : Env) (s : State) : Switched :=
  if report_code s = k.REPORT_ECEF_POSITION_S then
    ⟨{ s with m_updated := { s.m_updated with ecef_position_s := true },
              m_ecef_position_s :=
                { valid := true,
                  report :=
                    { x := to_int32 (shl (extended_data s 0) 24 + shl (extended_data s 1) 16
                                      + shl (extended_data s 2) 8 + extended_data s 3)
                      y := to_int32 (shl (extended_data s 4) 24 + shl (extended_data s 5) 16
                                      + shl (extended_data s 6) 8 + extended_data s 7)
                      z := to_int32 (shl (extended_data s 8) 24 + shl (extended_data s 9) 16
                                      + shl (extended_data s 10) 8 + extended_data s 11)
                      time_of_fix :=
                        (shl (extended_data s 12) 24 + shl (extended_data s 13) 16
                          + shl (extended_data s 14) 8 + extended_data s 15) % 2 ^ 32 } } },
     k.sizeof_ecef_position_s, false⟩
  else if report_code s = k.REPORT_ECEF_POSITION_D then
    ⟨{ s with m_updated := { s.m_updated with ecef_position_d := true },
              m_ecef_position_d := { s.m_ecef_position_d with valid := true } },
     k.sizeof_ecef_position_d, false⟩
  else if report_code s = k.REPORT_ECEF_VELOCITY then
    ⟨{ s with m_updated := { s.m_updated with ecef_velocity := true },
              m_ecef_velocity := { s.m_ecef_velocity with valid := true } },
     k.sizeof_ecef_velocity, false⟩
  else if report_code s = k.REPORT_SW_VERSION then
    ⟨{ s with m_updated := { s.m_updated with sw_version := true },
              m_sw_version := { s.m_sw_version with valid := true } },
     k.sizeof_sw_version, false⟩
  else if report_code s = k.REPORT_SINGLE_POSITION then
    ⟨{ s with m_updated := { s.m_updated with single_position := true },
              m_single_position := { s.m_single_position with valid := true } },
     k.sizeof_single_position, false⟩
  else if report_code s = k.REPORT_DOUBLE_POSITION then
    ⟨{ s with m_updated := { s.m_updated with double_position := true },
              m_double_position := { s.m_double_position with valid := true } },
     k.sizeof_single_position, false⟩
  else if report_code s = k.REPORT_IO_OPTIONS then
    ⟨{ s with m_updated := { s.m_updated with io_options := true },
              m_io_options := { s.m_io_options with valid := true } },
     k.sizeof_io_options, false⟩
  else if report_code s = k.REPORT_ENU_VELOCITY then
    ⟨{ s with m_updated := { s.m_updated with enu_velocity := true },
              m_enu_velocity := { s.m_enu_velocity with valid := true } },
     k.sizeof_enu_velocity, false⟩
  else if report_code s = k.REPORT_SUPER then
    ⟨(unknown_case k (super_switch k s).state).1,
     (unknown_case k (super_switch k s).state).2,
     (super_switch k s).undefined⟩
  else ⟨(unknown_case k s).1, (unknown_case k s).2, false⟩

/-- The output of the `if (debug)` block of `update_report`. -/
def debug_dump (s : State) : List Msg :=
  if s.debug then
    [Msg.command_buffer ((List.range 24).map (fun i => s.m_command.getD i 0)),
     Msg.report_buffer ((List.range s.m_report_length).map (fun i => raw_data s i))]
  else []

/-- `tsip::update_report`. Every `memcpy(dst, src, ...)` of the source is inside a
comment, so no record is copied into. -/
def update_report (k : Env) (s : State) : Outcome :=
  let found := if s.verbose then [Msg.found_report (report_code s) (extended_subcode s)] else []
  let r := report_switch k s
  if 0 < r.rlen then
    { ret := 1, state := r.state, wrote := none, out := found ++ debug_dump r.state,
      undefined := r.undefined }
  else
    { ret := 0, state := r.state, wrote := none, out := found, undefined := r.undefined }

/-! ## Byte framer -/

/-- The statement `m_report.raw.data[m_report_length++] = c`, with the index stored at. -/
def store (s : State) (c : Nat) : State × Option Nat :=
  ({ s with m_report := s.m_report.set s.m_report_length c,
            m_report_length := s.m_report_length + 1 },
   some s.m_report_length)

/-- The statement `if (verbose) printf("waiting gps packet......\n");`. -/
def waiting_msg (s : State) : List Msg :=
  if s.verbose then [Msg.waiting] else []

/-- `tsip::encode`. In `case DATA_DLE:` the final `else` has no braces, so the
`printf` that follows it is the next statement of the case: it runs whenever the case
does not return, also after an escaped `DLE`. -/
def encode (k : Env) (s : State) (c : Nat) : Outcome :=
  match s.m_state with
  | .START =>
    if c = k.DLE then
      { ret := 0, state := { s with m_state := .FRAME }, wrote := none, out := [] }
    else
      { ret := 0, state := s, wrote := none, out := [] }
  | .FRAME =>
    if c = k.DLE ∨ c = k.ETX then
      { ret := 0, state := { s with m_state := .START }, wrote := none, out := [] }
    else
      let w := store { s with m_state := .DATA, m_report_length := 0 } c
      { ret := 0, state := w.1, wrote := w.2, out := [] }
  | .DATA =>
    if c = k.DLE then
      { ret := 0, state := { s with m_state := .DATA_DLE }, wrote := none, out := [] }
    else if s.m_report_length < k.MAX_DATA then
      let w := store s c
      { ret := 0, state := w.1, wrote := w.2, out := [] }
    else
      { ret := 0, state := s, wrote := none, out := [] }
  | .DATA_DLE =>
    if c = k.DLE then
      let s1 := { s with m_state := .DATA }
      let w := if s1.m_report_length < k.MAX_DATA then store s1 c else (s1, none)
      { ret := 0, state := w.1, wrote := w.2, out := waiting_msg w.1 }
    else if c = k.ETX then
      update_report k { s with m_state := .START }
    else
      { ret := 0, state := { s with m_state := .START }, wrote := none,
        out := waiting_msg s }
  | .invalid _ =>
    { ret := 0, state := { s with m_state := .START }, wrote := none,
      out := waiting_msg s }

/-- `tsip::init_rpt`: the loop leaves all `MAX_DATA` bytes of the frame buffer zero. -/
def init_rpt (k : Env) (s : State) : State :=
  { s with
    m_report_length := 0
    m_state := .START
    m_updated := Updated.clear
    m_ecef_position_s := { s.m_ecef_position_s with valid := false }
    m_ecef_position_d := { s.m_ecef_position_d with valid := false }
    m_ecef_velocity := { s.m_ecef_velocity with valid := false }
    m_sw_version := { s.m_sw_version with valid := false }
    m_single_position := { s.m_single_position with valid := false }
    m_double_position := { s.m_double_position with valid := false }
    m_io_options := { s.m_io_options with valid := false }
    m_enu_velocity := { s.m_enu_velocity with valid := false }
    m_utc_gps_time := { s.m_utc_gps_time with valid := false }
    m_primary_time := { s.m_primary_time with valid := false }
    m_secondary_time := { s.m_secondary_time with valid := false }
    m_unknown := { s.m_unknown with valid := false }
    m_report := List.replicate k.MAX_DATA 0 }

/-- `tsip::set_verbose`. -/
def set_verbose (s : State) (vb : Bool) : State := { s with verbose := vb }

/-- `tsip::set_debug`. -/
def set_debug (s : State) (db : Bool) : State := { s with debug := db }

/-! ## Driving the framer -/

/-- The object after `encode` has been called on each byte of a stream in turn. -/
def feed (k : Env) (s : State) : List Nat → State
  | [] => s
  | c :: cs => feed k (encode k s c).state cs

/-- The outcomes of the successive calls of `encode` on the bytes of a stream. -/
def run (k : Env) (s : State) : List Nat → List Outcome
  | [] => []
  | c :: cs => encode k s c :: run k (encode k s c).state cs

/-- The sender side of the wire format: every `DLE` of a payload is doubled. -/
def stuff (k : Env) : List Nat → List Nat
  | [] => []
  | b :: bs => if b = k.DLE then b :: b :: stuff k bs else b :: stuff k bs

/-- The wire bytes of a frame: `DLE`, the stuffed payload, `DLE`, `ETX`. -/
def wire (k : Env) (p : List Nat) : List Nat :=
  k.DLE :: (stuff k p ++ [k.DLE, k.ETX])

/-- An object of class `tsip` with zeroed storage, as a static object is before its
constructor runs. -/
def zeroed (k : Env) : State where
  m_state := .START
  m_report_length := 0
  m_report := List.replicate k.MAX_DATA 0
  m_command := []
  m_updated := Updated.clear
  m_ecef_position_s := { valid := false, report := { x := 0, y := 0, z := 0, time_of_fix := 0 } }
  m_ecef_position_d := { valid := false, report := List.replicate k.sizeof_ecef_position_d 0 }
  m_ecef_velocity := { valid := false, report := List.replicate k.sizeof_ecef_velocity 0 }
  m_sw_version := { valid := false, report := List.replicate k.sizeof_sw_version 0 }
  m_single_position := { valid := false, report := List.replicate k.sizeof_single_position 0 }
  m_double_position := { valid := false, report := List.replicate k.sizeof_single_position 0 }
  m_io_options := { valid := false, report := List.replicate k.sizeof_io_options 0 }
  m_enu_velocity := { valid := false, report := List.replicate k.sizeof_enu_velocity 0 }
  m_utc_gps_time := { valid := false, report := { bits_value := 0 } }
  m_primary_time := { valid := false, report := ⟨0, 0, 0, 0, 0, 0, 0, 0, 0, 0⟩ }
  m_secondary_time :=
    { valid := false,
      report := ⟨0, 0, 0, 0, 0, 0, 0, 0, 0, 0, 0, 0, 0, 0, 0, 0, 0, 0, List.replicate 8 0⟩ }
  m_unknown := { valid := false, report := { raw_data := List.replicate k.sizeof_unknown_raw_data 0 } }
  verbose := false
  debug := false

/-- The object after the constructor `tsip::tsip()`. -/
def tsip (k : Env) : State :=
  { init_rpt k (zeroed k) with verbose := true, debug := false }

/-! ## Auxiliary definitions for the proofs -/

/-- One payload byte arriving in the `DATA` state: stored if capacity remains,
dropped otherwise. -/
def push (k : Env) (s : State) (c : Nat) : State :=
  if s.m_report_length < k.MAX_DATA then (store s c).1 else s

/-- The buffer after the bytes of `q` have been stored from index `n` on. -/
def overlay (b : List Nat) (n : Nat) : List Nat → List Nat
  | [] => b
  | c :: cs => overlay (b.set n c) (n + 1) cs

/-- The object once the framer has taken in the payload `c :: q` of a frame and sits
in the `DATA` state. -/
def loaded (k : Env) (s : State) (c : Nat) (q : List Nat) : State :=
  q.foldl (push k) (store { s with m_state := .DATA, m_report_length := 0 } c).1


/-- The two bytes of a 16-bit value, most significant first. -/
def be16 (v : Nat) : List Nat := [v / 2 ^ 8 % 256, v % 256]

/-- The four bytes of a 32-bit value, most significant first. -/
def be32 (v : Nat) : List Nat := [v / 2 ^ 24 % 256, v / 2 ^ 16 % 256, v / 2 ^ 8 % 256, v % 256]

/-- The field values fit their wire widths: `seconds_of_week` 32 bits, `week_number`,
`utc_offset` and `year` 16 bits, the others 8 bits. -/
def PrimaryTime.in_range (r : PrimaryTime) : Prop :=
  r.seconds_of_week < 2 ^ 32 ∧ r.week_number < 2 ^ 16 ∧ r.utc_offset < 2 ^ 16 ∧
  r.flags_value < 2 ^ 8 ∧ r.seconds < 2 ^ 8 ∧ r.minutes < 2 ^ 8 ∧ r.hours < 2 ^ 8 ∧
  r.day < 2 ^ 8 ∧ r.month < 2 ^ 8 ∧ r.year < 2 ^ 16

instance (r : PrimaryTime) : Decidable r.in_range := by
  unfold PrimaryTime.in_range; infer_instance

/-- The 18-byte payload of a primary-time frame: code, sub-code, then the fields
big-endian at offsets 0, 4, 6, 8, 9, 10, 11, 12, 13, 14. -/
def primary_time_payload (k : Env) (r : PrimaryTime) : List Nat :=
  [k.REPORT_SUPER, k.REPORT_SUPER_PRIMARY_TIME] ++ be32 r.seconds_of_week
    ++ be16 r.week_number ++ be16 r.utc_offset
    ++ [r.flags_value, r.seconds, r.minutes, r.hours, r.day, r.month] ++ be16 r.year

/-- Every valid flag that is set in `s` is set in `t` (the twelve report records). -/
def valid_le (s t : State) : Prop :=
  (s.m_ecef_position_s.valid = true → t.m_ecef_position_s.valid = true) ∧
  (s.m_ecef_position_d.valid = true → t.m_ecef_position_d.valid = true) ∧
  (s.m_ecef_velocity.valid = true → t.m_ecef_velocity.valid = true) ∧
  (s.m_sw_version.valid = true → t.m_sw_version.valid = true) ∧
  (s.m_single_position.valid = true → t.m_single_position.valid = true) ∧
  (s.m_double_position.valid = true → t.m_double_position.valid = true) ∧
  (s.m_io_options.valid = true → t.m_io_options.valid = true) ∧
  (s.m_enu_velocity.valid = true → t.m_enu_velocity.valid = true) ∧
  (s.m_utc_gps_time.valid = true → t.m_utc_gps_time.valid = true) ∧
  (s.m_primary_time.valid = true → t.m_primary_time.valid = true) ∧
  (s.m_secondary_time.valid = true → t.m_secondary_time.valid = true) ∧
  (s.m_unknown.valid = true → t.m_unknown.valid = true)

/-- A primary-time frame: code `8f`, sub-code `ab`, seconds-of-week 100, week 2000,
UTC offset 18, flags 0, 12:30:45, day 15, month 6, year 2024. -/
def primary_time_frame : List Nat :=
  [0x8F, 0xAB, 0, 0, 0, 100, 7, 208, 0, 18, 0, 45, 30, 12, 15, 6, 7, 232]

/-- A frame with the report code `99`, which is no `case` label of `update_report`. -/
def unsupported_frame : List Nat := [0x99, 0x01, 0x02]

/-- A simple ECEF position frame: code `42`, then X = 1, Y = 2, Z = 3 and
time-of-fix = 4 as big-endian 32-bit values in frame bytes 1..16. -/
def ecef_position_frame : List Nat :=
  [0x42, 0, 0, 0, 1, 0, 0, 0, 2, 0, 0, 0, 3, 0, 0, 0, 4]

/-- A frame buffer holding a secondary-time frame whose first four field bytes are
`3f 80 00 00`, the big-endian pattern of the single-precision value 1.0. -/
def single_one_buffer : State :=
  { tsip thunderbolt with m_report := [0x8F, 0xAC, 0x3F, 0x80, 0x00, 0x00] }

/-- Every byte of the frame buffer is a `UINT8` value. -/
def bytes_ok (s : State) : Prop := ∀ b ∈ s.m_report, b < 256

instance (s : State) : Decidable (bytes_ok s) := by
  unfold bytes_ok; infer_instance

/-- A frame buffer whose field bytes have their top bits set: code `8f`, sub-code
`ab`, then `ff fe 80 01 c3`. -/
def high_bytes_buffer : State :=
  { tsip thunderbolt with m_report := [0x8F, 0xAB, 0xFF, 0xFE, 0x80, 0x01, 0xC3],
                          m_report_length := 7 }

/-- An ECEF velocity frame: code `43`, then the twenty payload bytes `01` .. `14`. -/
def ecef_velocity_frame : List Nat :=
  [0x43, 1, 2, 3, 4, 5, 6, 7, 8, 9, 10, 11, 12, 13, 14, 15, 16, 17, 18, 19, 20]

/-- A primary-time frame cut short after four field bytes: code `8f`, sub-code `ab`,
seconds-of-week 7. -/
def short_primary_time_frame : List Nat := [0x8F, 0xAB, 0, 0, 0, 7]

/-- A freshly constructed object after `DLE 41`: the framer is in `DATA` with one byte
stored. -/
def in_data : State := feed thunderbolt (tsip thunderbolt) [0x10, 0x41]

/-- A freshly constructed object after `DLE 41 DLE`: the framer is in `DATA_DLE`. -/
def in_data_dle : State := feed thunderbolt (tsip thunderbolt) [0x10, 0x41, 0x10]

/-- The frame buffer holds a secondary-time frame: code `REPORT_SUPER`, sub-code
`REPORT_SUPER_SECONDARY_TIME`. -/
def secondary_time_frame (k : Env) (s : State) : Prop :=
  report_code s = k.REPORT_SUPER ∧ extended_subcode s = k.REPORT_SUPER_SECONDARY_TIME

instance (k : Env) (s : State) : Decidable (secondary_time_frame k s) := by
  unfold secondary_time_frame; infer_instance

/-- For each successive call of `encode`, whether it ran into undefined behaviour. -/
def faults (k : Env) (s : State) (cs : List Nat) : List Bool :=
  (run k s cs).map (fun o => o.undefined)

/-- A secondary-time payload of 69 bytes: code `8f`, sub-code `ac`, then 67 field bytes
`41`. -/
def secondary_time_payload : List Nat := [0x8F, 0xAC] ++ List.replicate 67 0x41

/-- A payload of 132 bytes that begins like a secondary-time frame: `8f ac`, then 130
bytes `41`. -/
def long_secondary_time_payload : List Nat := [0x8F, 0xAC] ++ List.replicate 130 0x41

/-- A freshly constructed object that has taken in `DLE`, the secondary-time payload and
the closing `DLE`: the framer is in `DATA_DLE` and the next `ETX` completes the frame. -/
def secondary_time_loaded : State :=
  feed thunderbolt (tsip thunderbolt)
    (thunderbolt.DLE :: (stuff thunderbolt secondary_time_payload ++ [thunderbolt.DLE]))

/-! ## The framer on a stuffed payload -/

theorem feed_append (k : Env) (s : State) (a b : List Nat) :
    feed k s (a ++ b) = feed k (feed k s a) b := by
  induction a generalizing s with
  | nil => rfl
  | cons c cs ih => simp [feed, ih]

theorem push_m_state (k : Env) (s : State) (c : Nat) : (push k s c).m_state = s.m_state := by
  unfold push store; split <;> rfl

theorem foldl_push_m_state (k : Env) (q : List Nat) (s : State) :
    (q.foldl (push k) s).m_state = s.m_state := by
  induction q generalizing s with
  | nil => rfl
  | cons c cs ih => simp [List.foldl, ih, push_m_state]

theorem encode_data_dle_dle (k : Env) (s : State) (hs : s.m_state = .DATA) :
    (encode k (encode k s k.DLE).state k.DLE).state = push k s k.DLE := by
  cases s
  simp only at hs
  subst hs
  simp only [encode, push, store, if_true]
  split <;> rfl

theorem encode_data_other (k : Env) (s : State) (c : Nat) (hs : s.m_state = .DATA)
    (hc : c ≠ k.DLE) : (encode k s c).state = push k s c := by
  simp only [encode, hs, hc, push, if_false]
  split <;> rfl

/-- Feeding a stuffed payload to a framer in the `DATA` state stores its bytes one by
one, as far as capacity remains. -/
theorem feed_stuff (k : Env) (q : List Nat) (s : State) (hs : s.m_state = .DATA) :
    feed k s (stuff k q) = q.foldl (push k) s := by
  induction q generalizing s with
  | nil => rfl
  | cons b bs ih =>
    by_cases hb : b = k.DLE
    · subst hb
      simp only [stuff, if_true, feed, List.foldl]
      rw [encode_data_dle_dle k s hs]
      exact ih _ (by rw [push_m_state]; exact hs)
    · simp only [stuff, hb, if_false, feed, List.foldl]
      rw [encode_data_other k s b hs hb]
      exact ih _ (by rw [push_m_state]; exact hs)

theorem encode_ret_data (k : Env) (s : State) (c : Nat) (hs : s.m_state = .DATA) :
    (encode k s c).ret = 0 := by
  simp only [encode, hs]
  split
  · rfl
  · split <;> rfl

theorem encode_ret_data_dle_dle (k : Env) (s : State) (hs : s.m_state = .DATA_DLE) :
    (encode k s k.DLE).ret = 0 := by
  simp only [encode, hs, if_true]

theorem encode_data_dle_m_state (k : Env) (s : State) (hs : s.m_state = .DATA) :
    (encode k s k.DLE).state.m_state = .DATA_DLE := by
  simp only [encode, hs, if_true]

theorem overlay_length (q : List Nat) (b : List Nat) (n : Nat) :
    (overlay b n q).length = b.length := by
  induction q generalizing b n with
  | nil => rfl
  | cons c cs ih => simp [overlay, ih]

theorem take_succ_set (b : List Nat) (n c : Nat) (h : n < b.length) :
    (b.set n c).take (n + 1) = b.take n ++ [c] := by
  induction b generalizing n with
  | nil => simp at h
  | cons x xs ih =>
    cases n with
    | zero => simp
    | succ m =>
      simp only [List.length_cons, Nat.add_lt_add_iff_right] at h
      simp [List.set, List.take, ih m h]

theorem overlay_take (q : List Nat) (b : List Nat) (n : Nat) (h : n + q.length ≤ b.length) :
    (overlay b n q).take (n + q.length) = b.take n ++ q := by
  induction q generalizing b n with
  | nil => simp [overlay]
  | cons c cs ih =>
    simp only [List.length_cons] at h
    have h1 : n + 1 + cs.length ≤ (b.set n c).length := by simp; omega
    have := ih (b.set n c) (n + 1) h1
    simp only [overlay, List.length_cons]
    rw [show n + (cs.length + 1) = n + 1 + cs.length by omega, this,
      take_succ_set b n c (by omega)]
    simp

/-- Storing a payload that fits: the length grows by the number of bytes and the
bytes land in the buffer in order; nothing else changes. -/
theorem foldl_push_fits (k : Env) (q : List Nat) (s : State)
    (h : s.m_report_length + q.length ≤ k.MAX_DATA) :
    q.foldl (push k) s =
      { s with m_report_length := s.m_report_length + q.length,
               m_report := overlay s.m_report s.m_report_length q } := by
  induction q generalizing s with
  | nil => simp [overlay]
  | cons c cs ih =>
    simp only [List.length_cons] at h
    have hlt : s.m_report_length < k.MAX_DATA := by omega
    have hp : push k s c = (store s c).1 := by simp [push, hlt]
    simp only [List.foldl, hp]
    rw [ih (store s c).1 (by simp only [store]; omega)]
    simp only [store, overlay, List.length_cons]
    congr 1
    omega

theorem loaded_m_state (k : Env) (s : State) (c : Nat) (q : List Nat) :
    (loaded k s c q).m_state = .DATA := by
  simp [loaded, foldl_push_m_state, store]

theorem stuff_cons_ne (k : Env) (c : Nat) (q : List Nat) (hc : c ≠ k.DLE) :
    stuff k (c :: q) = c :: stuff k q := by
  simp [stuff, hc]

/-- Feeding the opening `DLE` and the stuffed payload from the `START` state. -/
theorem feed_open (k : Env) (s : State) (c : Nat) (q : List Nat)
    (hs : s.m_state = .START) (hd : c ≠ k.DLE) (he : c ≠ k.ETX) :
    feed k s (k.DLE :: stuff k (c :: q)) = loaded k s c q := by
  rw [stuff_cons_ne k c q hd]
  simp only [feed]
  have h1 : (encode k s k.DLE).state = { s with m_state := .FRAME } := by
    simp [encode, hs]
  rw [h1]
  have h2 : (encode k { s with m_state := .FRAME } c).state
      = (store { s with m_state := .DATA, m_report_length := 0 } c).1 := by
    simp [encode, hd, he]
  rw [h2, feed_stuff k q _ (by simp [store])]
  rfl

/-- Feeding a whole wire frame from the `START` state dispatches the loaded frame. -/
theorem feed_wire (k : Env) (s : State) (c : Nat) (q : List Nat) (hde : k.DLE ≠ k.ETX)
    (hs : s.m_state = .START) (hd : c ≠ k.DLE) (he : c ≠ k.ETX) :
    feed k s (wire k (c :: q))
      = (update_report k { loaded k s c q with m_state := .START }).state := by
  have hw : wire k (c :: q) = (k.DLE :: stuff k (c :: q)) ++ [k.DLE, k.ETX] := by
    simp [wire]
  rw [hw, feed_append, feed_open k s c q hs hd he]
  have hm := loaded_m_state k s c q
  simp only [feed]
  have h1 : (encode k (loaded k s c q) k.DLE).state
      = { loaded k s c q with m_state := .DATA_DLE } := by
    simp [encode, hm]
  rw [h1]
  simp [encode, Ne.symm hde]

/-! ## The dispatcher leaves the framer variables alone and reports success -/

theorem unknown_case_frame (k : Env) (s : State) :
    (unknown_case k s).1.m_state = s.m_state ∧
    (unknown_case k s).1.m_report_length = s.m_report_length ∧
    (unknown_case k s).1.m_report = s.m_report := ⟨rfl, rfl, rfl⟩

theorem update_report_state (k : Env) (s : State) :
    (update_report k s).state = (report_switch k s).1 := by
  unfold update_report
  simp only
  split <;> rfl

theorem rlen_ite_pos (c : Prop) [Decidable c] (a b : Switched) (ha : 0 < a.rlen)
    (hb : 0 < b.rlen) : 0 < (if c then a else b).rlen := by
  split <;> assumption

theorem report_switch_rlen_pos (k : Env) (s : State) (hsz : k.sizes_pos) :
    0 < (report_switch k s).2 := by
  obtain ⟨h1, h2, h3, h4, h5, h6, h7, h8, h9, h10, h11⟩ := hsz
  unfold report_switch
  exact rlen_ite_pos _ _ _ h1 (rlen_ite_pos _ _ _ h2 (rlen_ite_pos _ _ _ h3
    (rlen_ite_pos _ _ _ h4 (rlen_ite_pos _ _ _ h5 (rlen_ite_pos _ _ _ h5
    (rlen_ite_pos _ _ _ h6 (rlen_ite_pos _ _ _ h7 (rlen_ite_pos _ _ _ h11 h11))))))))

/-- The `ret` component of the dispatcher's outcome is 1 whatever the frame holds:
`rlen` is a `sizeof` on every path through the `switch`. Whether the call gets as far
as its `return` is told by `undefined`, see `update_report_defined`. -/
theorem update_report_ret (k : Env) (s : State) (hsz : k.sizes_pos) :
    (update_report k s).ret = 1 := by
  unfold update_report
  simp only [report_switch_rlen_pos k s hsz, if_true]

/-- The length and the buffer once a payload that fits has been loaded. -/
theorem loaded_fits (k : Env) (s : State) (c : Nat) (q : List Nat)
    (hbuf : s.m_report.length = k.MAX_DATA) (hlen : (c :: q).length ≤ k.MAX_DATA) :
    (loaded k s c q).m_report_length = (c :: q).length ∧
    (loaded k s c q).m_report.take (c :: q).length = c :: q ∧
    (loaded k s c q).m_report.length = k.MAX_DATA := by
  simp only [List.length_cons] at hlen
  unfold loaded
  rw [foldl_push_fits k q _ (by simp only [store]; omega)]
  simp only [store, List.length_cons]
  refine ⟨by omega, ?_, ?_⟩
  · have h := overlay_take q (s.m_report.set 0 c) (0 + 1) (by simp; omega)
    rw [show q.length + 1 = 0 + 1 + q.length by omega, h,
      take_succ_set s.m_report 0 c (by omega)]
    simp
  · rw [overlay_length]; simp [hbuf]

theorem getD_of_take (l p : List Nat) (n i : Nat) (h : l.take n = p) (hi : i < p.length) :
    l.getD i 0 = p.getD i 0 := by
  subst h
  have hi2 : i < n := by
    simp only [List.length_take] at hi; omega
  simp [List.getD_eq_getElem?_getD, List.getElem?_take, hi2]

theorem be32_decode (v : Nat) (h : v < 2 ^ 32) :
    (shl (v / 2 ^ 24 % 256) 24 + shl (v / 2 ^ 16 % 256) 16 + shl (v / 2 ^ 8 % 256) 8
      + v % 256) % 2 ^ 32 = v := by
  simp only [shl]
  norm_num at h ⊢
  omega

theorem be16_decode (v : Nat) (h : v < 2 ^ 16) :
    (shl (v / 2 ^ 8 % 256) 8 + v % 256) % 2 ^ 16 = v := by
  simp only [shl]
  norm_num at h ⊢
  omega

/-- The outer `switch` on a frame whose code is `REPORT_SUPER`. -/
theorem report_switch_super (k : Env) (s : State) (hlab : k.labels_distinct)
    (hc : report_code s = k.REPORT_SUPER) :
    report_switch k s
      = ⟨(unknown_case k (super_switch k s).1).1, (unknown_case k (super_switch k s).1).2,
          (super_switch k s).undefined⟩ := by
  obtain ⟨ho, _⟩ := hlab
  simp only [Env.outer_labels, List.nodup_cons, List.mem_cons, List.mem_singleton,
    not_or, List.not_mem_nil, or_false] at ho
  obtain ⟨⟨_, _, _, _, _, _, _, h1⟩, ⟨_, _, _, _, _, _, h2⟩, ⟨_, _, _, _, _, h3⟩,
    ⟨_, _, _, _, h4⟩, ⟨_, _, _, h5⟩, ⟨_, _, h6⟩, ⟨_, h7⟩, h8, _⟩ := ho
  unfold report_switch
  rw [hc]
  simp only [Ne.symm h1, Ne.symm h2, Ne.symm h3, Ne.symm h4, Ne.symm h5, Ne.symm h6,
    Ne.symm h7, Ne.symm h8, if_false, if_true]

/-! ## The dispatcher on every frame -/

/-- Every frame with the composite code also runs the outer `default:` label, whatever
its sub-code: the unknown flag is set and the unknown record becomes valid. -/
theorem super_frame_marks_unknown (k : Env) (s : State) (hlab : k.labels_distinct)
    (hc : report_code s = k.REPORT_SUPER) :
    (update_report k s).state.m_updated.unknown = true ∧
    (update_report k s).state.m_unknown.valid = true := by
  rw [update_report_state, report_switch_super k s hlab hc]
  exact ⟨rfl, rfl⟩

/-- No path through `update_report` assigns to the fields of the unknown record. -/
theorem update_report_unknown_report (k : Env) (s : State) :
    (update_report k s).state.m_unknown.report = s.m_unknown.report := by
  rw [update_report_state]
  unfold report_switch
  split_ifs
  all_goals first
    | rfl
    | (unfold super_switch; split_ifs <;> rfl)

theorem report_switch_unsupported (k : Env) (s : State)
    (hcode : report_code s ∉ k.outer_labels) :
    report_switch k s = ⟨(unknown_case k s).1, (unknown_case k s).2, false⟩ := by
  simp only [Env.outer_labels, List.mem_cons, List.mem_singleton, not_or,
    List.not_mem_nil, or_false] at hcode
  obtain ⟨h1, h2, h3, h4, h5, h6, h7, h8, h9⟩ := hcode
  unfold report_switch
  simp only [h1, h2, h3, h4, h5, h6, h7, h8, h9, if_false]

/-- What `b4_to_single` returns for any frame: the byte at `bb` does not take part,
the three bytes after it are shifted up by one place, and the low byte of the result
is storage the loop never assigned. -/
theorem b4_to_single_value (k : Env) (s : State) (bb : Nat) :
    b4_to_single k s bb 'e'
      = extended_data s (bb + 1) * 2 ^ 24 + extended_data s (bb + 2) * 2 ^ 16
        + extended_data s (bb + 3) * 2 ^ 8 + k.uninit := by
  simp [b4_to_single, b4_to_single_union, sizeof_SINGLE, Scratch.fresh, Scratch.assign,
    List.range, List.range.loop, le_value, List.replicate]
  omega

/-! ## Field decoder on byte values -/

theorem raw_data_lt (s : State) (h : bytes_ok s) (i : Nat) : raw_data s i < 256 := by
  unfold raw_data
  by_cases hi : i < s.m_report.length
  · rw [List.getD_eq_getElem _ _ hi]
    exact h _ (List.getElem_mem hi)
  · rw [List.getD_eq_default _ _ (by omega)]
    omega

theorem be16_value (a b : Nat) (ha : a < 256) (hb : b < 256) :
    (shl a 8 + b) % 2 ^ 16 = a * 256 + b := by
  simp only [shl]
  norm_num
  omega

theorem be32_value (a b c d : Nat) (ha : a < 256) (hb : b < 256) (hc : c < 256)
    (hd : d < 256) :
    (shl a 24 + shl b 16 + shl c 8 + d) % 2 ^ 32
      = a * 2 ^ 24 + b * 2 ^ 16 + c * 2 ^ 8 + d := by
  simp only [shl]
  norm_num
  omega

/-- No path through `update_report` assigns to the fields of the seven simple-report
records that relied on the copy step. -/
theorem update_report_simple_reports (k : Env) (s : State) :
    (update_report k s).state.m_ecef_position_d.report = s.m_ecef_position_d.report ∧
    (update_report k s).state.m_ecef_velocity.report = s.m_ecef_velocity.report ∧
    (update_report k s).state.m_sw_version.report = s.m_sw_version.report ∧
    (update_report k s).state.m_single_position.report = s.m_single_position.report ∧
    (update_report k s).state.m_double_position.report = s.m_double_position.report ∧
    (update_report k s).state.m_io_options.report = s.m_io_options.report ∧
    (update_report k s).state.m_enu_velocity.report = s.m_enu_velocity.report := by
  rw [update_report_state]
  unfold report_switch
  split_ifs
  all_goals first
    | exact ⟨rfl, rfl, rfl, rfl, rfl, rfl, rfl⟩
    | (unfold super_switch; split_ifs <;> exact ⟨rfl, rfl, rfl, rfl, rfl, rfl, rfl⟩)

theorem foldl_push_full (k : Env) (q : List Nat) (s : State)
    (h : k.MAX_DATA ≤ s.m_report_length) : q.foldl (push k) s = s := by
  induction q with
  | nil => rfl
  | cons c cs ih =>
    have hp : push k s c = s := by
      simp [push, Nat.not_lt.mpr h]
    simp only [List.foldl, hp, ih]

/-- Storing a payload of any length: the bytes that fit are stored, the rest is
dropped. -/
theorem foldl_push_capped (k : Env) (q : List Nat) (s : State)
    (h : s.m_report_length ≤ k.MAX_DATA) :
    q.foldl (push k) s =
      { s with m_report_length :=
                 s.m_report_length + min q.length (k.MAX_DATA - s.m_report_length),
               m_report := overlay s.m_report s.m_report_length
                 (q.take (k.MAX_DATA - s.m_report_length)) } := by
  by_cases hc : q.length ≤ k.MAX_DATA - s.m_report_length
  · rw [foldl_push_fits k q s (by omega), List.take_of_length_le hc, Nat.min_eq_left hc]
  · have hq : q = q.take (k.MAX_DATA - s.m_report_length)
        ++ q.drop (k.MAX_DATA - s.m_report_length) := (List.take_append_drop _ _).symm
    conv_lhs => rw [hq]
    rw [List.foldl_append,
      foldl_push_fits k (q.take (k.MAX_DATA - s.m_report_length)) s
        (by simp only [List.length_take]; omega)]
    rw [foldl_push_full]
    · simp only [List.length_take, Nat.min_comm]
    · simp only [List.length_take]
      omega

/-- The object once the payload `c :: q` of a frame of any length has been taken
in: the first byte is stored at index 0 and the bytes that fit after it. -/
theorem loaded_eq (k : Env) (s : State) (c : Nat) (q : List Nat) :
    loaded k s c q =
      { s with m_state := .DATA,
               m_report_length := 1 + min q.length (k.MAX_DATA - 1),
               m_report := overlay s.m_report 0 (c :: q.take (k.MAX_DATA - 1)) } := by
  unfold loaded
  by_cases hM : 1 ≤ k.MAX_DATA
  · rw [foldl_push_capped k q _ (by simp only [store]; omega)]
    simp only [store, overlay]
  · have h0 : k.MAX_DATA = 0 := by omega
    rw [foldl_push_full k q _ (by simp only [store]; omega)]
    simp [store, overlay, h0]

/-- The length and the buffer once a payload longer than the buffer has been loaded. -/
theorem loaded_overlong (k : Env) (s : State) (c : Nat) (q : List Nat)
    (hcap : 1 ≤ k.MAX_DATA) (hbuf : s.m_report.length = k.MAX_DATA)
    (hlong : k.MAX_DATA < (c :: q).length) :
    (loaded k s c q).m_report_length = k.MAX_DATA ∧
    (loaded k s c q).m_report = (c :: q).take k.MAX_DATA := by
  simp only [List.length_cons] at hlong
  rw [loaded_eq]
  simp only
  have hP : c :: q.take (k.MAX_DATA - 1) = (c :: q).take k.MAX_DATA := by
    obtain ⟨m, hm⟩ : ∃ m, k.MAX_DATA = m + 1 := ⟨k.MAX_DATA - 1, by omega⟩
    rw [hm]
    simp
  have hPl : (c :: q.take (k.MAX_DATA - 1)).length = k.MAX_DATA := by
    simp only [List.length_cons, List.length_take]
    omega
  refine ⟨by omega, ?_⟩
  have ht := overlay_take (c :: q.take (k.MAX_DATA - 1)) s.m_report 0 (by rw [hPl, hbuf]; omega)
  rw [hPl] at ht
  rw [List.take_of_length_le (by rw [overlay_length, hbuf]; omega)] at ht
  rw [ht, hP]
  simp

/-- The primary-time record written by the dispatcher is a function of frame bytes
0 to 17. -/
theorem primary_time_congr (k : Env) (t1 t2 : State) (hlab : k.labels_distinct)
    (h : ∀ i, i < 18 → raw_data t1 i = raw_data t2 i)
    (hc : report_code t2 = k.REPORT_SUPER)
    (hsub : extended_subcode t2 = k.REPORT_SUPER_PRIMARY_TIME) :
    (update_report k t1).state.m_primary_time = (update_report k t2).state.m_primary_time := by
  have hc1 : report_code t1 = k.REPORT_SUPER := by
    rw [← hc]; exact h 0 (by omega)
  have hsub1 : extended_subcode t1 = k.REPORT_SUPER_PRIMARY_TIME := by
    rw [← hsub]; exact h 1 (by omega)
  have hne : k.REPORT_SUPER_PRIMARY_TIME ≠ k.REPORT_SUPER_UTC_GPS_TIME := by
    have := hlab.2
    simp only [Env.inner_labels, List.nodup_cons, List.mem_cons, List.mem_singleton,
      not_or] at this
    exact Ne.symm this.1.1
  rw [update_report_state, update_report_state, report_switch_super k t1 hlab hc1,
    report_switch_super k t2 hlab hc]
  simp only [unknown_case, super_switch, hsub, hsub1, hne, if_false, if_true]
  simp only [b4_to_uint32, b2_to_uint16, extended_data, if_true,
    show ('e' = 'r') = False by decide, if_false,
    h 2 (by omega), h 3 (by omega), h 4 (by omega), h 5 (by omega),
    h 6 (by omega), h 7 (by omega), h 8 (by omega), h 9 (by omega),
    h 10 (by omega), h 11 (by omega), h 12 (by omega), h 13 (by omega),
    h 14 (by omega), h 15 (by omega), h 16 (by omega), h 17 (by omega)]

/-- The first bytes of the buffer after a frame that fits, read through `raw_data`. -/
theorem raw_data_fed (k : Env) (s : State) (c : Nat) (q : List Nat)
    (hbuf : s.m_report.length = k.MAX_DATA) (hlen : (c :: q).length ≤ k.MAX_DATA)
    (i : Nat) (hi : i < (c :: q).length) :
    raw_data { loaded k s c q with m_state := .START } i = (c :: q).getD i 0 := by
  obtain ⟨_, l2, _⟩ := loaded_fits k s c q hbuf hlen
  exact getD_of_take _ _ _ i l2 hi

/-- The loop of `b4_to_single` starts at `j = sizeof(SINGLE)`: its first store is past
the end of the union, for every buffer and every offset. -/
theorem b4_to_single_overrun (k : Env) (s : State) (bb : Nat) :
    (b4_to_single_union k s bb 'e').overrun = true ∧
    (b4_to_single_union k s bb 'e').defined = false := by
  simp [b4_to_single_union, sizeof_SINGLE, List.range, List.range.loop, Scratch.fresh,
    Scratch.assign, Scratch.defined]

/-- The loop of `b8_to_double` starts at `j = sizeof(DOUBLE)-1`: every store is inside
the union and all eight bytes are assigned. -/
theorem b8_to_double_defined (k : Env) (s : State) (bb : Nat) :
    (b8_to_double_union k s bb 'e').defined = true := by
  simp [b8_to_double_union, sizeof_DOUBLE, List.range, List.range.loop, Scratch.fresh,
    Scratch.assign, Scratch.defined]

theorem secondary_time_conversions_undefined (k : Env) (s : State) :
    secondary_time_conversions_defined k s = false := by
  simp [secondary_time_conversions_defined, (b4_to_single_overrun k s 15).2]

theorem undefined_ite (c : Prop) [Decidable c] (a b : Switched)
    (ha : c → a.undefined = false) (hb : ¬ c → b.undefined = false) :
    (if c then a else b).undefined = false := by
  split
  · exact ha ‹_›
  · exact hb ‹_›

/-- Every path of the dispatcher other than `case REPORT_SUPER_SECONDARY_TIME` is free
of undefined behaviour. -/
theorem update_report_defined (k : Env) (s : State) (h : ¬ secondary_time_frame k s) :
    (update_report k s).undefined = false := by
  have hu : (update_report k s).undefined = (report_switch k s).undefined := by
    unfold update_report
    simp only
    split <;> rfl
  rw [hu]
  unfold report_switch
  refine undefined_ite _ _ _ (fun _ => rfl) (fun _ => undefined_ite _ _ _ (fun _ => rfl)
    (fun _ => undefined_ite _ _ _ (fun _ => rfl) (fun _ => undefined_ite _ _ _ (fun _ => rfl)
    (fun _ => undefined_ite _ _ _ (fun _ => rfl) (fun _ => undefined_ite _ _ _ (fun _ => rfl)
    (fun _ => undefined_ite _ _ _ (fun _ => rfl) (fun _ => undefined_ite _ _ _ (fun _ => rfl)
    (fun _ => undefined_ite _ _ _ (fun hc => ?_) (fun _ => rfl)))))))))
  show (super_switch k s).undefined = false
  unfold super_switch
  exact undefined_ite _ _ _ (fun _ => rfl) (fun _ => undefined_ite _ _ _ (fun _ => rfl)
    (fun _ => undefined_ite _ _ _ (fun hsub => absurd ⟨hc, hsub⟩ h) (fun _ => rfl)))

/-- The dispatcher on a secondary-time frame calls `b4_to_single`: undefined
behaviour, whatever the field bytes are. -/
theorem update_report_secondary_undefined (k : Env) (s : State) (hlab : k.labels_distinct)
    (h : secondary_time_frame k s) : (update_report k s).undefined = true := by
  have hu : (update_report k s).undefined = (report_switch k s).undefined := by
    unfold update_report
    simp only
    split <;> rfl
  obtain ⟨hc, hsub⟩ := h
  have hi := hlab.2
  simp only [Env.inner_labels, List.nodup_cons, List.mem_cons, List.mem_singleton,
    not_or, List.not_mem_nil, or_false] at hi
  obtain ⟨⟨_, h1⟩, h2, _⟩ := hi
  rw [hu, report_switch_super k s hlab hc]
  show (super_switch k s).undefined = true
  unfold super_switch
  rw [hsub, if_neg (Ne.symm h1), if_neg (Ne.symm h2), if_pos rfl]
  show (!secondary_time_conversions_defined k s) = true
  rw [secondary_time_conversions_undefined]
  rfl

/-- A call of `encode` that does not complete a frame is free of undefined behaviour. -/
theorem encode_defined (k : Env) (s : State) (c : Nat)
    (h : ¬ (s.m_state = .DATA_DLE ∧ c = k.ETX)) : (encode k s c).undefined = false := by
  cases hm : s.m_state with
  | START => simp only [encode, hm]; split <;> rfl
  | FRAME => simp only [encode, hm]; split <;> rfl
  | DATA =>
    simp only [encode, hm]
    split
    · rfl
    · split <;> rfl
  | DATA_DLE =>
    have hc : ¬ c = k.ETX := fun hc => h ⟨hm, hc⟩
    simp only [encode, hm, hc, if_false]
    split <;> rfl
  | invalid n => simp only [encode, hm]

/-- When the dispatcher is free of undefined behaviour its outcome does not depend on
the content of unassigned storage. -/
theorem report_switch_uninit (k : Env) (s : State) (u : Nat)
    (h : (report_switch k s).undefined = false) :
    report_switch { k with uninit := u } s = report_switch k s := by
  by_cases h1 : s.m_report.getD 0 0 = k.REPORT_ECEF_POSITION_S
  · simp only [if_true, if_false, report_switch, report_code, raw_data, extended_data, eq_true h1]
  by_cases h2 : s.m_report.getD 0 0 = k.REPORT_ECEF_POSITION_D
  · simp only [if_true, if_false, report_switch, report_code, raw_data, h1, eq_true h2]
  by_cases h3 : s.m_report.getD 0 0 = k.REPORT_ECEF_VELOCITY
  · simp only [if_true, if_false, report_switch, report_code, raw_data, h1, h2, eq_true h3]
  by_cases h4 : s.m_report.getD 0 0 = k.REPORT_SW_VERSION
  · simp only [if_true, if_false, report_switch, report_code, raw_data, h1, h2, h3, eq_true h4]
  by_cases h5 : s.m_report.getD 0 0 = k.REPORT_SINGLE_POSITION
  · simp only [if_true, if_false, report_switch, report_code, raw_data, h1, h2, h3, h4, eq_true h5]
  by_cases h6 : s.m_report.getD 0 0 = k.REPORT_DOUBLE_POSITION
  · simp only [if_true, if_false, report_switch, report_code, raw_data, h1, h2, h3, h4, h5, eq_true h6]
  by_cases h7 : s.m_report.getD 0 0 = k.REPORT_IO_OPTIONS
  · simp only [if_true, if_false, report_switch, report_code, raw_data, h1, h2, h3, h4, h5, h6, eq_true h7]
  by_cases h8 : s.m_report.getD 0 0 = k.REPORT_ENU_VELOCITY
  · simp only [if_true, if_false, report_switch, report_code, raw_data, h1, h2, h3, h4, h5, h6, h7, eq_true h8]
  by_cases h9 : s.m_report.getD 0 0 = k.REPORT_SUPER
  · by_cases g1 : s.m_report.getD 1 0 = k.REPORT_SUPER_UTC_GPS_TIME
    · simp only [if_true, if_false, report_switch, super_switch, unknown_case, report_code, extended_subcode,
        extended_data, raw_data, h1, h2, h3, h4, h5, h6, h7, h8, eq_true h9, eq_true g1]
    by_cases g2 : s.m_report.getD 1 0 = k.REPORT_SUPER_PRIMARY_TIME
    · simp only [if_true, if_false, report_switch, super_switch, unknown_case, report_code, extended_subcode,
        extended_data, report_data, raw_data, b4_to_uint32, b2_to_uint16,
        h1, h2, h3, h4, h5, h6, h7, h8, eq_true h9, g1, eq_true g2]
    by_cases g3 : s.m_report.getD 1 0 = k.REPORT_SUPER_SECONDARY_TIME
    · exfalso
      simp only [if_true, if_false, report_switch, super_switch, report_code, extended_subcode,
        raw_data, h1, h2, h3, h4, h5, h6, h7, h8, eq_true h9, g1, g2, eq_true g3,
        secondary_time_conversions_undefined] at h
      exact absurd h (by decide)
    · simp only [if_true, if_false, report_switch, super_switch, unknown_case, report_code, extended_subcode,
        raw_data, h1, h2, h3, h4, h5, h6, h7, h8, eq_true h9, g1, g2, g3]
  · simp only [if_true, if_false, report_switch, unknown_case, report_code, raw_data,
      h1, h2, h3, h4, h5, h6, h7, h8, h9]

theorem update_report_uninit (k : Env) (s : State) (u : Nat)
    (h : (update_report k s).undefined = false) :
    update_report { k with uninit := u } s = update_report k s := by
  have hu : (update_report k s).undefined = (report_switch k s).undefined := by
    unfold update_report
    simp only
    split <;> rfl
  rw [hu] at h
  unfold update_report
  rw [report_switch_uninit k s u h]

/-- A call of `encode` that is free of undefined behaviour has the same outcome
whatever unassigned storage holds: `Env.uninit` only matters to calls flagged
`undefined`. -/
theorem encode_uninit (k : Env) (s : State) (c u : Nat)
    (h : (encode k s c).undefined = false) :
    encode { k with uninit := u } s c = encode k s c := by
  cases s with
  | mk ms len rep cmd upd r1 r2 r3 r4 r5 r6 r7 r8 r9 r10 r11 r12 vb db =>
    cases ms with
    | START => rfl
    | FRAME => rfl
    | DATA => rfl
    | DATA_DLE =>
      simp only [encode] at h ⊢
      split
      · rfl
      · split
        · rename_i h1 h2
          simp only [h1, eq_true h2, if_false, if_true] at h
          exact update_report_uninit k _ u h
        · rfl
    | invalid n => rfl

/-! ## The framer up to the dispatch -/

theorem run_append (k : Env) (s : State) (a b : List Nat) :
    run k s (a ++ b) = run k s a ++ run k (feed k s a) b := by
  induction a generalizing s with
  | nil => rfl
  | cons c cs ih => simp [run, feed, ih]

theorem encode_defined_escaped (k : Env) (t : State) (ht : t.m_state = .DATA_DLE) :
    (encode k t k.DLE).undefined = false := by
  simp only [encode, ht, if_true]

/-- While a stuffed payload is fed in the `DATA` state every call returns 0 and none
runs into undefined behaviour. -/
theorem run_stuff_quiet (k : Env) (q : List Nat) (s : State) (hs : s.m_state = .DATA) :
    ∀ o ∈ run k s (stuff k q), o.ret = 0 ∧ o.undefined = false := by
  induction q generalizing s with
  | nil => intro o ho; simp [stuff, run] at ho
  | cons b bs ih =>
    have hnd : ¬ (s.m_state = .DATA_DLE ∧ b = k.ETX) := by rw [hs]; simp
    by_cases hb : b = k.DLE
    · subst hb
      have h1 := encode_data_dle_m_state k s hs
      have h2 := encode_data_dle_dle k s hs
      have hq := encode_defined_escaped k _ h1
      intro o ho
      simp only [stuff, if_true, run, List.mem_cons, h2] at ho
      rcases ho with rfl | rfl | ho
      · exact ⟨encode_ret_data k s _ hs, encode_defined k s _ hnd⟩
      · exact ⟨encode_ret_data_dle_dle k _ h1, hq⟩
      · exact ih _ (by rw [push_m_state]; exact hs) o ho
    · have h2 := encode_data_other k s b hs hb
      intro o ho
      simp only [stuff, hb, if_false, run, List.mem_cons, h2] at ho
      rcases ho with rfl | ho
      · exact ⟨encode_ret_data k s _ hs, encode_defined k s _ hnd⟩
      · exact ih _ (by rw [push_m_state]; exact hs) o ho

/-- From the `START` state, the opening `DLE`, the stuffed payload `c :: q` and the
closing `DLE`: every call returns 0, none runs into undefined behaviour, and the
framer ends in `DATA_DLE` with the payload loaded. -/
theorem feed_open_quiet (k : Env) (s : State) (c : Nat) (q : List Nat)
    (hs : s.m_state = .START) (hd : c ≠ k.DLE) (he : c ≠ k.ETX) :
    (∀ o ∈ run k s (k.DLE :: (stuff k (c :: q) ++ [k.DLE])),
      o.ret = 0 ∧ o.undefined = false) ∧
    feed k s (k.DLE :: (stuff k (c :: q) ++ [k.DLE]))
      = { loaded k s c q with m_state := .DATA_DLE } := by
  have hw : k.DLE :: (stuff k (c :: q) ++ [k.DLE])
      = (k.DLE :: stuff k (c :: q)) ++ [k.DLE] := by simp
  have hm := loaded_m_state k s c q
  have hlast : (encode k (loaded k s c q) k.DLE).state
      = { loaded k s c q with m_state := .DATA_DLE } := by
    simp [encode, hm]
  refine ⟨?_, ?_⟩
  · have hw2 : k.DLE :: (stuff k (c :: q) ++ [k.DLE])
        = [k.DLE, c] ++ (stuff k q ++ [k.DLE]) := by
      simp [stuff_cons_ne k c q hd]
    have hf : feed k s [k.DLE, c]
        = (store { s with m_state := .DATA, m_report_length := 0 } c).1 := by
      simp [feed, encode, hs, hd, he]
    have hst : (store { s with m_state := .DATA, m_report_length := 0 } c).1.m_state
        = .DATA := rfl
    have hl : feed k (store { s with m_state := .DATA, m_report_length := 0 } c).1
        (stuff k q) = loaded k s c q := by
      rw [feed_stuff k q _ hst]; rfl
    intro o ho
    rw [hw2, run_append, hf, run_append, hl] at ho
    simp only [List.mem_append] at ho
    rcases ho with ho | ho | ho
    · simp only [run, List.mem_cons, List.mem_singleton, List.not_mem_nil, or_false] at ho
      rcases ho with rfl | rfl
      · simp [encode, hs]
      · simp [encode, hs, hd, he]
    · exact run_stuff_quiet k q _ hst o ho
    · simp only [run, List.mem_cons, List.not_mem_nil, or_false] at ho
      subst ho
      exact ⟨encode_ret_data k _ _ hm, encode_defined k _ _ (by rw [hm]; simp)⟩
  · rw [hw, feed_append, feed_open k s c q hs hd he]
    simp only [feed, hlast]

/-- The framer up to the dispatch, for every payload that fits: from the `START`
state, the opening `DLE`, the stuffed payload `p` and the closing `DLE` are taken in
with `encode` returning 0 on every byte and no call running into undefined behaviour;
the framer is then in `DATA_DLE` with `m_report_length = |p|` and the first `|p|` bytes
of the frame buffer equal to `p`. What the call on the final `ETX` does is the
dispatcher's business. -/
theorem framing_up_to_dispatch (k : Env) (s : State) (p : List Nat)
    (hs : s.m_state = .START) (hbuf : s.m_report.length = k.MAX_DATA)
    (hne : p ≠ []) (hlen : p.length ≤ k.MAX_DATA)
    (hd : p.head? ≠ some k.DLE) (he : p.head? ≠ some k.ETX) :
    (∀ o ∈ run k s (k.DLE :: (stuff k p ++ [k.DLE])), o.ret = 0 ∧ o.undefined = false) ∧
    (feed k s (k.DLE :: (stuff k p ++ [k.DLE]))).m_state = .DATA_DLE ∧
    (feed k s (k.DLE :: (stuff k p ++ [k.DLE]))).m_report_length = p.length ∧
    (feed k s (k.DLE :: (stuff k p ++ [k.DLE]))).m_report.take p.length = p := by
  cases p with
  | nil => exact absurd rfl hne
  | cons c q =>
    have hd1 : c ≠ k.DLE := fun h => hd (by simp [h])
    have he1 : c ≠ k.ETX := fun h => he (by simp [h])
    obtain ⟨hq, hf⟩ := feed_open_quiet k s c q hs hd1 he1
    obtain ⟨l1, l2, _⟩ := loaded_fits k s c q hbuf hlen
    rw [hf]
    exact ⟨hq, rfl, l1, l2⟩

/-- The framer up to the dispatch, for every payload longer than the buffer: with
`MAX_DATA >= 1` the bytes that fit are stored and the rest is dropped, with `encode`
returning 0 on every byte and no call running into undefined behaviour; the framer is
then in `DATA_DLE` with `m_report_length = MAX_DATA` and the frame buffer equal to the
first `MAX_DATA` bytes of `p`. -/
theorem overlong_up_to_dispatch (k : Env) (s : State) (p : List Nat)
    (hcap : 1 ≤ k.MAX_DATA) (hs : s.m_state = .START)
    (hbuf : s.m_report.length = k.MAX_DATA) (hlong : k.MAX_DATA < p.length)
    (hd : p.head? ≠ some k.DLE) (he : p.head? ≠ some k.ETX) :
    (∀ o ∈ run k s (k.DLE :: (stuff k p ++ [k.DLE])), o.ret = 0 ∧ o.undefined = false) ∧
    (feed k s (k.DLE :: (stuff k p ++ [k.DLE]))).m_state = .DATA_DLE ∧
    (feed k s (k.DLE :: (stuff k p ++ [k.DLE]))).m_report_length = k.MAX_DATA ∧
    (feed k s (k.DLE :: (stuff k p ++ [k.DLE]))).m_report = p.take k.MAX_DATA := by
  cases p with
  | nil => simp at hlong
  | cons c q =>
    have hd1 : c ≠ k.DLE := fun h => hd (by simp [h])
    have he1 : c ≠ k.ETX := fun h => he (by simp [h])
    obtain ⟨hq, hf⟩ := feed_open_quiet k s c q hs hd1 he1
    obtain ⟨l1, l2⟩ := loaded_overlong k s c q hcap hbuf hlong
    rw [hf]
    exact ⟨hq, rfl, l1, l2⟩

/-- From the `START` state a doubled escape leaves the object as it was: `DLE` goes to
`FRAME`, the second `DLE` back to `START`; both calls return 0 and neither runs into
undefined behaviour. -/
theorem feed_doubled_escape (k : Env) (s : State) (hs : s.m_state = .START) :
    feed k s [k.DLE, k.DLE] = s ∧
    ∀ o ∈ run k s [k.DLE, k.DLE], o.ret = 0 ∧ o.undefined = false := by
  cases s
  simp only at hs
  subst hs
  simp [feed, run, encode]

/-! ## Claims C1 to C10 -/

/-- C1. Primary-time round trip: for all field values within their wire widths, the
wire bytes of the 18-byte primary-time payload, fed byte by byte from the `START`
state with `MAX_DATA >= 18`, leave `m_primary_time.valid` true and every field of
`m_primary_time.report` equal to the original value. -/
theorem primary_time_round_trip (k : Env) (s : State) (r : PrimaryTime)
    (hde : k.DLE ≠ k.ETX) (hlab : k.labels_distinct)
    (hsd : k.REPORT_SUPER ≠ k.DLE) (hse : k.REPORT_SUPER ≠ k.ETX)
    (hcap : 18 ≤ k.MAX_DATA) (hs : s.m_state = .START)
    (hbuf : s.m_report.length = k.MAX_DATA) (hr : r.in_range) :
    (feed k s (wire k (primary_time_payload k r))).m_primary_time
      = { valid := true, report := r } := by
  obtain ⟨r1, r2, r3, r4, r5, r6, r7, r8, r9, r10⟩ := hr
  have hp : primary_time_payload k r = k.REPORT_SUPER ::
      ([k.REPORT_SUPER_PRIMARY_TIME] ++ be32 r.seconds_of_week
        ++ be16 r.week_number ++ be16 r.utc_offset
        ++ [r.flags_value, r.seconds, r.minutes, r.hours, r.day, r.month] ++ be16 r.year) := rfl
  rw [hp, feed_wire k s _ _ hde hs hsd hse, update_report_state]
  obtain ⟨_, l2, _⟩ := loaded_fits k s k.REPORT_SUPER
    ([k.REPORT_SUPER_PRIMARY_TIME] ++ be32 r.seconds_of_week
        ++ be16 r.week_number ++ be16 r.utc_offset
        ++ [r.flags_value, r.seconds, r.minutes, r.hours, r.day, r.month] ++ be16 r.year)
    hbuf (by simp [be32, be16]; omega)
  generalize loaded k s k.REPORT_SUPER _ = L at l2 ⊢
  have hraw : ∀ i, i < 18 → raw_data { L with m_state := .START } i
      = (primary_time_payload k r).getD i 0 := by
    intro i hi
    exact getD_of_take _ _ _ i l2 (by simp [primary_time_payload, be32, be16]; omega)
  have hcode : report_code { L with m_state := .START } = k.REPORT_SUPER := hraw 0 (by omega)
  have hsub : extended_subcode { L with m_state := .START } = k.REPORT_SUPER_PRIMARY_TIME :=
    hraw 1 (by omega)
  rw [report_switch_super k _ hlab hcode]
  have hne : k.REPORT_SUPER_PRIMARY_TIME ≠ k.REPORT_SUPER_UTC_GPS_TIME := by
    have := hlab.2
    simp only [Env.inner_labels, List.nodup_cons, List.mem_cons, List.mem_singleton,
      not_or] at this
    exact Ne.symm this.1.1
  simp only [unknown_case, super_switch, hsub, hne, if_false, if_true]
  simp only [b4_to_uint32, b2_to_uint16, extended_data, if_true,
    show ('e' = 'r') = False by decide, if_false,
    hraw 2 (by omega), hraw 3 (by omega), hraw 4 (by omega), hraw 5 (by omega),
    hraw 6 (by omega), hraw 7 (by omega), hraw 8 (by omega), hraw 9 (by omega),
    hraw 10 (by omega), hraw 11 (by omega), hraw 12 (by omega), hraw 13 (by omega),
    hraw 14 (by omega), hraw 15 (by omega), hraw 16 (by omega), hraw 17 (by omega)]
  simp only [primary_time_payload, be32, be16, List.cons_append, List.nil_append,
    List.getD_cons_succ, List.getD_cons_zero, List.append_assoc]
  rw [be32_decode _ r1, be16_decode _ r2, be16_decode _ r3, be16_decode _ r10]

/-- C1, witness: seconds-of-week 100, week 2000, UTC offset 18, flags 0, 12:30:45,
day 15, month 6, year 2024, fed to a freshly constructed object. -/
theorem primary_time_round_trip_witness :
    (feed thunderbolt (tsip thunderbolt)
      (wire thunderbolt (primary_time_payload thunderbolt
        { seconds_of_week := 100, week_number := 2000, utc_offset := 18, flags_value := 0,
          seconds := 45, minutes := 30, hours := 12, day := 15, month := 6,
          year := 2024 }))).m_primary_time
      = { valid := true,
          report := { seconds_of_week := 100, week_number := 2000, utc_offset := 18,
                      flags_value := 0, seconds := 45, minutes := 30, hours := 12,
                      day := 15, month := 6, year := 2024 } } :=
  primary_time_round_trip thunderbolt (tsip thunderbolt) _
    (by decide) (by decide) (by decide) (by decide) (by decide) rfl
    (by simp [tsip, init_rpt]) (by decide)

set_option maxRecDepth 100000 in
/-- C2. The code on the wire bytes of a secondary-time payload (`8f ac`, then 67 field
bytes `41`: non-empty, 69 bytes, first byte neither `DLE` nor `ETX`) fed to a freshly
constructed object. Up to the closing `DLE` every call returns 0, none runs into
undefined behaviour, and the frame buffer holds the payload. The call on the final
`ETX` dispatches to `case REPORT_SUPER_SECONDARY_TIME`, whose first `b4_to_single`
stores past the end of its local union: that call has undefined behaviour, it need
not return 1 or return at all. -/
theorem secondary_time_frame_completion_undefined :
    secondary_time_payload ≠ [] ∧
    secondary_time_payload.length ≤ thunderbolt.MAX_DATA ∧
    secondary_time_payload.head? ≠ some thunderbolt.DLE ∧
    secondary_time_payload.head? ≠ some thunderbolt.ETX ∧
    (tsip thunderbolt).m_state = .START ∧
    wire thunderbolt secondary_time_payload
      = (thunderbolt.DLE :: (stuff thunderbolt secondary_time_payload ++ [thunderbolt.DLE]))
        ++ [thunderbolt.ETX] ∧
    (run thunderbolt (tsip thunderbolt)
      (thunderbolt.DLE :: (stuff thunderbolt secondary_time_payload ++ [thunderbolt.DLE]))).all
        (fun o => decide (o.ret = 0) && !o.undefined) = true ∧
    secondary_time_loaded.m_state = .DATA_DLE ∧
    secondary_time_loaded.m_report_length = 69 ∧
    secondary_time_loaded.m_report.take 69 = secondary_time_payload ∧
    (encode thunderbolt secondary_time_loaded thunderbolt.ETX).undefined = true := by
  decide

set_option maxRecDepth 100000 in
/-- C3. The code on a completed primary-time frame (code `8f`, sub-code `ab`), fed to a
freshly constructed object whose updated-flag set is clear: the inner `switch` is not
followed by a `break`, so the outer `default:` also runs; two updated-flags are set
(primary-time and unknown) and two records change (`m_primary_time` and the valid
flag of `m_unknown`). -/
theorem primary_time_frame_sets_two_flags :
    (tsip thunderbolt).m_updated = Updated.clear ∧
    (tsip thunderbolt).m_unknown.valid = false ∧
    (tsip thunderbolt).m_primary_time.valid = false ∧
    (feed thunderbolt (tsip thunderbolt) (wire thunderbolt primary_time_frame)).m_updated
      = { Updated.clear with primary_time := true, unknown := true } ∧
    (feed thunderbolt (tsip thunderbolt)
      (wire thunderbolt primary_time_frame)).m_primary_time.valid = true ∧
    (feed thunderbolt (tsip thunderbolt)
      (wire thunderbolt primary_time_frame)).m_unknown.valid = true := by
  decide

set_option maxRecDepth 100000 in
/-- C4. The code on a completed frame with the unsupported code `99`, fed to a freshly
constructed object: the frame buffer holds the frame, the unknown flag is set, and the
raw data of the unknown record is still what it was (zero), not the bytes of the
frame: no statement of `update_report` copies into it. -/
theorem unknown_record_not_filled :
    (feed thunderbolt (tsip thunderbolt) (wire thunderbolt unsupported_frame)).m_report.take 3
      = unsupported_frame ∧
    (feed thunderbolt (tsip thunderbolt)
      (wire thunderbolt unsupported_frame)).m_updated.unknown = true ∧
    (feed thunderbolt (tsip thunderbolt)
      (wire thunderbolt unsupported_frame)).m_unknown.report.raw_data.take 3 = [0, 0, 0] ∧
    (feed thunderbolt (tsip thunderbolt)
      (wire thunderbolt unsupported_frame)).m_unknown.report
      = (tsip thunderbolt).m_unknown.report := by
  decide

/-- C5. A frame whose code byte is none of the nine supported codes, dispatched when
the updated-flag set is clear: `update_report` returns 1, the unknown flag is the only
updated-flag set, `m_unknown.valid` is true, and nothing else of the object changes
(every other record keeps its valid flag and its fields). -/
theorem unsupported_code_sets_only_unknown (k : Env) (s : State) (hsz : k.sizes_pos)
    (hcode : report_code s ∉ k.outer_labels) (hclr : s.m_updated = Updated.clear) :
    (update_report k s).ret = 1 ∧
    (update_report k s).state.m_updated = { Updated.clear with unknown := true } ∧
    (update_report k s).state.m_unknown.valid = true ∧
    (update_report k s).state
      = { s with m_updated := { Updated.clear with unknown := true },
                 m_unknown := { s.m_unknown with valid := true } } := by
  have hst : (update_report k s).state
      = { s with m_updated := { Updated.clear with unknown := true },
                 m_unknown := { s.m_unknown with valid := true } } := by
    rw [update_report_state, report_switch_unsupported k s hcode]
    simp only [unknown_case, hclr]
  refine ⟨update_report_ret k s hsz, ?_, ?_, hst⟩
  · rw [hst]
  · rw [hst]

set_option maxRecDepth 100000 in
/-- C5, witness: a frame buffer holding `99 01 02` in a freshly constructed object. -/
theorem unsupported_code_sets_only_unknown_witness :
    (update_report thunderbolt
      { tsip thunderbolt with m_report := unsupported_frame, m_report_length := 3 }).ret = 1 ∧
    (update_report thunderbolt
      { tsip thunderbolt with m_report := unsupported_frame,
                              m_report_length := 3 }).state.m_updated
      = { Updated.clear with unknown := true } ∧
    (update_report thunderbolt
      { tsip thunderbolt with m_report := unsupported_frame,
                              m_report_length := 3 }).state.m_unknown.valid = true ∧
    (update_report thunderbolt
      { tsip thunderbolt with m_report := unsupported_frame, m_report_length := 3 }).state
      = { ({ tsip thunderbolt with m_report := unsupported_frame,
                                   m_report_length := 3 } : State) with
          m_updated := { Updated.clear with unknown := true },
          m_unknown := { (tsip thunderbolt).m_unknown with valid := true } } :=
  unsupported_code_sets_only_unknown thunderbolt
    { tsip thunderbolt with m_report := unsupported_frame, m_report_length := 3 }
    (by decide) (by decide) (by decide)

set_option maxRecDepth 100000 in
/-- C7, counterexample. After `DLE 41 DLE` the framer is in `DATA_DLE`, and the byte
`41` (neither `DLE` nor `ETX`) is a mis-framing; after `DLE 41` it is in `DATA`, and
the byte `42` is appended. Both calls of `encode` return the same value, 0. -/
theorem misframed_return_equals_in_progress :
    (feed thunderbolt (tsip thunderbolt) [0x10, 0x41, 0x10]).m_state = .DATA_DLE ∧
    (feed thunderbolt (tsip thunderbolt) [0x10, 0x41]).m_state = .DATA ∧
    (encode thunderbolt (feed thunderbolt (tsip thunderbolt) [0x10, 0x41]) 0x42).wrote
      = some 1 ∧
    (encode thunderbolt (feed thunderbolt (tsip thunderbolt) [0x10, 0x41, 0x10]) 0x41).ret = 0 ∧
    (encode thunderbolt (feed thunderbolt (tsip thunderbolt) [0x10, 0x41]) 0x42).ret = 0 ∧
    ¬ ((encode thunderbolt (feed thunderbolt (tsip thunderbolt) [0x10, 0x41, 0x10]) 0x41).ret
        ≠ (encode thunderbolt (feed thunderbolt (tsip thunderbolt) [0x10, 0x41]) 0x42).ret) := by
  decide

/-- C7, amended. `encode` has two return values, not three. It returns 0 on every call
that does not complete a frame, and 1 on the call that completes a frame (`ETX` in
`DATA_DLE`) other than a secondary-time frame; neither kind of call runs into
undefined behaviour. A byte that is neither `DLE` nor `ETX` arriving in `DATA_DLE`
resets the framer to `START`, changes nothing else, and returns 0, the value also
returned for a byte taken in the `DATA` state; the mis-framing shows only in the
diagnostic printed when `verbose` is set. -/
theorem encode_two_outcomes (k : Env) (s : State) (c : Nat)
    (hde : k.DLE ≠ k.ETX) (hsz : k.sizes_pos) :
    (¬ (s.m_state = .DATA_DLE ∧ c = k.ETX) →
      (encode k s c).ret = 0 ∧ (encode k s c).undefined = false) ∧
    (s.m_state = .DATA_DLE → c = k.ETX → ¬ secondary_time_frame k s →
      (encode k s c).ret = 1 ∧ (encode k s c).undefined = false) ∧
    (s.m_state = .DATA_DLE → c ≠ k.DLE → c ≠ k.ETX →
      (encode k s c).ret = 0 ∧ (encode k s c).state = { s with m_state := .START } ∧
      (encode k s c).out = waiting_msg s) ∧
    (s.m_state = .DATA → c ≠ k.DLE → (encode k s c).ret = 0) := by
  have hother : ¬ (s.m_state = .DATA_DLE ∧ c = k.ETX) → (encode k s c).ret = 0 := by
    intro h
    cases hm : s.m_state with
    | START => simp only [encode, hm]; split <;> rfl
    | FRAME => simp only [encode, hm]; split <;> rfl
    | DATA => exact encode_ret_data k s c hm
    | DATA_DLE =>
      have hc : ¬ c = k.ETX := fun hc => h ⟨hm, hc⟩
      simp only [encode, hm, hc, if_false]
      split <;> rfl
    | invalid n => simp only [encode, hm]
  refine ⟨fun h => ⟨hother h, encode_defined k s c h⟩, ?_, ?_, ?_⟩
  · intro hs hc hns
    subst hc
    have hne : ¬ k.ETX = k.DLE := Ne.symm hde
    have he : encode k s k.ETX = update_report k { s with m_state := .START } := by
      simp only [encode, hs, hne, if_false, if_true]
    rw [he]
    exact ⟨update_report_ret k _ hsz, update_report_defined k _ hns⟩
  · intro hs hd he
    simp [encode, hs, hd, he]
  · intro hs _
    exact encode_ret_data k s c hs

set_option maxRecDepth 100000 in
/-- C7, witness: after `DLE 41` the byte `42` is taken in `DATA`; after `DLE 41 DLE` the
byte `41` is a mis-framing and `ETX` completes the frame `41`. -/
theorem encode_two_outcomes_witness :
    ((encode thunderbolt in_data 0x42).ret = 0 ∧
      (encode thunderbolt in_data 0x42).undefined = false) ∧
    ((encode thunderbolt in_data_dle 0x03).ret = 1 ∧
      (encode thunderbolt in_data_dle 0x03).undefined = false) ∧
    ((encode thunderbolt in_data_dle 0x41).ret = 0 ∧
      (encode thunderbolt in_data_dle 0x41).state = { in_data_dle with m_state := .START } ∧
      (encode thunderbolt in_data_dle 0x41).out = waiting_msg in_data_dle) ∧
    (encode thunderbolt in_data 0x42).ret = 0 :=
  ⟨(encode_two_outcomes thunderbolt in_data 0x42 (by decide) (by decide)).1 (by decide),
   (encode_two_outcomes thunderbolt in_data_dle 0x03 (by decide) (by decide)).2.1
     (by decide) (by decide) (by decide),
   (encode_two_outcomes thunderbolt in_data_dle 0x41 (by decide) (by decide)).2.2.1
     (by decide) (by decide) (by decide),
   (encode_two_outcomes thunderbolt in_data 0x42 (by decide) (by decide)).2.2.2
     (by decide) (by decide)⟩

set_option maxRecDepth 100000 in
/-- C9. The code on a completed simple ECEF position frame `42 | 00 00 00 01 |
00 00 00 02 | 00 00 00 03 | 00 00 00 04`: the fields are read through
`m_report.extended.data`, which starts at frame byte 2, so each value is assembled
from frame bytes 2..5, 6..9, 10..13 and 14..17 instead of 1..4, 5..8, 9..12 and
13..16: the record holds 256, 512, 768, 1024 where the payload says 1, 2, 3, 4. -/
theorem ecef_position_read_one_byte_late :
    (feed thunderbolt (tsip thunderbolt) (wire thunderbolt ecef_position_frame)).m_report.take 17
      = ecef_position_frame ∧
    (feed thunderbolt (tsip thunderbolt)
      (wire thunderbolt ecef_position_frame)).m_ecef_position_s
      = { valid := true, report := { x := 256, y := 512, z := 768, time_of_fix := 1024 } } := by
  decide

/-- C10. The code on the four bytes `3f 80 00 00` (the value 1.0): the loop of
`b4_to_single` starts at `j = sizeof(SINGLE)`, so it assigns `cdata[4]`, `cdata[3]`,
`cdata[2]`, `cdata[1]`: the first wire byte goes outside the 4-byte union, `cdata[0]`
is never assigned, and the result is the pattern `80 00 00 xx` instead of
`3f 80 00 00`. -/
theorem b4_to_single_drops_first_byte :
    [extended_data single_one_buffer 0, extended_data single_one_buffer 1,
     extended_data single_one_buffer 2, extended_data single_one_buffer 3]
      = [0x3F, 0x80, 0x00, 0x00] ∧
    (b4_to_single_union thunderbolt single_one_buffer 0 'e').assigned = [4, 3, 2, 1] ∧
    (b4_to_single_union thunderbolt single_one_buffer 0 'e').overrun = true ∧
    (b4_to_single_union thunderbolt single_one_buffer 0 'e').defined = false ∧
    b4_to_single thunderbolt single_one_buffer 0 'e' = 0x80000000 ∧
    b4_to_single thunderbolt single_one_buffer 0 'e'
      ≠ extended_data single_one_buffer 0 * 2 ^ 24 + extended_data single_one_buffer 1 * 2 ^ 16
        + extended_data single_one_buffer 2 * 2 ^ 8 + extended_data single_one_buffer 3 := by
  decide

/-! ## Claims C11 to C20 -/

/-- C11. Integer field decode: with every buffer byte a `UINT8` value,
`b2_to_uint16(bb, rc)` is `d[bb]*256 + d[bb+1]` and `b4_to_uint32(bb, rc)` is
`d[bb]*2^24 + d[bb+1]*2^16 + d[bb+2]*2^8 + d[bb+3]`, where `d[i]` is frame byte
`1+i` for `rc = 'r'` and frame byte `2+i` for `rc = 'e'`; for any other `rc` both
return 0. -/
theorem integer_field_decode (s : State) (bb : Nat) (rc : Char) (hb : bytes_ok s) :
    b2_to_uint16 s bb 'r' = raw_data s (1 + bb) * 256 + raw_data s (1 + (bb + 1)) ∧
    b2_to_uint16 s bb 'e' = raw_data s (2 + bb) * 256 + raw_data s (2 + (bb + 1)) ∧
    b4_to_uint32 s bb 'r'
      = raw_data s (1 + bb) * 2 ^ 24 + raw_data s (1 + (bb + 1)) * 2 ^ 16
        + raw_data s (1 + (bb + 2)) * 2 ^ 8 + raw_data s (1 + (bb + 3)) ∧
    b4_to_uint32 s bb 'e'
      = raw_data s (2 + bb) * 2 ^ 24 + raw_data s (2 + (bb + 1)) * 2 ^ 16
        + raw_data s (2 + (bb + 2)) * 2 ^ 8 + raw_data s (2 + (bb + 3)) ∧
    (rc ≠ 'r' → rc ≠ 'e' → b2_to_uint16 s bb rc = 0 ∧ b4_to_uint32 s bb rc = 0) := by
  have hlt := raw_data_lt s hb
  have her : ('e' = 'r') = False := by decide
  refine ⟨?_, ?_, ?_, ?_, ?_⟩
  · simp only [b2_to_uint16, if_true, report_data]
    exact be16_value _ _ (hlt _) (hlt _)
  · simp only [b2_to_uint16, her, if_false, if_true, extended_data]
    exact be16_value _ _ (hlt _) (hlt _)
  · simp only [b4_to_uint32, if_true, report_data]
    exact be32_value _ _ _ _ (hlt _) (hlt _) (hlt _) (hlt _)
  · simp only [b4_to_uint32, her, if_false, if_true, extended_data]
    exact be32_value _ _ _ _ (hlt _) (hlt _) (hlt _) (hlt _)
  · intro h1 h2
    simp [b2_to_uint16, b4_to_uint32, h1, h2]

/-- C11, witness: the buffer `8f ab ff fe 80 01 c3` at offset 0, with the codes `r`,
`e` and `x`. -/
theorem integer_field_decode_witness :
    bytes_ok high_bytes_buffer ∧
    b2_to_uint16 high_bytes_buffer 0 'r'
      = raw_data high_bytes_buffer (1 + 0) * 256 + raw_data high_bytes_buffer (1 + (0 + 1)) ∧
    b2_to_uint16 high_bytes_buffer 0 'e'
      = raw_data high_bytes_buffer (2 + 0) * 256 + raw_data high_bytes_buffer (2 + (0 + 1)) ∧
    b2_to_uint16 high_bytes_buffer 0 'x' = 0 ∧ b4_to_uint32 high_bytes_buffer 0 'x' = 0 :=
  ⟨by decide,
   (integer_field_decode high_bytes_buffer 0 'x' (by decide)).1,
   (integer_field_decode high_bytes_buffer 0 'x' (by decide)).2.1,
   (integer_field_decode high_bytes_buffer 0 'x' (by decide)).2.2.2.2 (by decide) (by decide)⟩

set_option maxRecDepth 100000 in
/-- C12. The code on a completed ECEF velocity frame (code `43`, payload `01` .. `14`)
fed to a freshly constructed object: the flag and the valid flag of the record are
set, but the fields of `m_ecef_velocity.report` are the zero bytes they were before;
no statement copies the payload into the record. -/
theorem simple_report_record_not_filled :
    (feed thunderbolt (tsip thunderbolt) (wire thunderbolt ecef_velocity_frame)).m_report.take 21
      = ecef_velocity_frame ∧
    (feed thunderbolt (tsip thunderbolt)
      (wire thunderbolt ecef_velocity_frame)).m_updated.ecef_velocity = true ∧
    (feed thunderbolt (tsip thunderbolt)
      (wire thunderbolt ecef_velocity_frame)).m_ecef_velocity.valid = true ∧
    (feed thunderbolt (tsip thunderbolt)
      (wire thunderbolt ecef_velocity_frame)).m_ecef_velocity.report
      = (tsip thunderbolt).m_ecef_velocity.report ∧
    (tsip thunderbolt).m_ecef_velocity.report = List.replicate 20 0 := by
  decide

set_option maxRecDepth 100000 in
/-- C13. The code on a secondary-time frame (72 wire bytes) fed twice back-to-back to a
freshly constructed object: the call that completes the first frame (the 72nd) already
runs into the out-of-bounds store of `b4_to_single`, and so does the call that
completes the second; neither frame completes with a defined return value, and what
the object holds afterwards is not determined by the program. -/
theorem repeated_secondary_time_frame_undefined :
    (tsip thunderbolt).m_state = .START ∧
    (wire thunderbolt secondary_time_payload).length = 72 ∧
    (faults thunderbolt (tsip thunderbolt)
      (wire thunderbolt secondary_time_payload
        ++ wire thunderbolt secondary_time_payload)).getD 71 false = true ∧
    (faults thunderbolt (tsip thunderbolt)
      (wire thunderbolt secondary_time_payload
        ++ wire thunderbolt secondary_time_payload)).getLast? = some true := by
  decide

set_option maxRecDepth 100000 in
/-- C14, counterexample. The same primary-time frame with only four field bytes
(`8f ab 00 00 00 07`) ends two histories: fed to a freshly constructed object it
leaves week 0, year 0; fed after the full frame of week 2000, year 2024 it leaves
week 2000, year 2024, the bytes the earlier frame left in the buffer. -/
theorem short_frame_reads_stale_bytes :
    (feed thunderbolt (tsip thunderbolt)
      (wire thunderbolt short_primary_time_frame)).m_primary_time.report
      = { seconds_of_week := 7, week_number := 0, utc_offset := 0, flags_value := 0,
          seconds := 0, minutes := 0, hours := 0, day := 0, month := 0, year := 0 } ∧
    (feed thunderbolt (tsip thunderbolt)
      (wire thunderbolt primary_time_frame
        ++ wire thunderbolt short_primary_time_frame)).m_primary_time.report
      = { seconds_of_week := 7, week_number := 2000, utc_offset := 18, flags_value := 0,
          seconds := 45, minutes := 30, hours := 12, day := 15, month := 6, year := 2024 } ∧
    (feed thunderbolt (tsip thunderbolt)
      (wire thunderbolt primary_time_frame
        ++ wire thunderbolt short_primary_time_frame)).m_primary_time.report
      ≠ (feed thunderbolt (tsip thunderbolt)
          (wire thunderbolt short_primary_time_frame)).m_primary_time.report := by
  decide

/-- C14, amended. For any two objects in the `START` state (any two histories), the
same complete primary-time frame whose payload carries all sixteen field bytes (at
least 18 bytes, fitting the capacity) leaves the same `m_primary_time` record: the
record is a function of the bytes of that frame. -/
theorem primary_time_from_last_frame (k : Env) (s1 s2 : State) (f : List Nat)
    (hde : k.DLE ≠ k.ETX) (hlab : k.labels_distinct)
    (hsd : k.REPORT_SUPER ≠ k.DLE) (hse : k.REPORT_SUPER ≠ k.ETX)
    (hs1 : s1.m_state = .START) (hs2 : s2.m_state = .START)
    (hb1 : s1.m_report.length = k.MAX_DATA) (hb2 : s2.m_report.length = k.MAX_DATA)
    (hf : 16 ≤ f.length) (hfit : f.length + 2 ≤ k.MAX_DATA) :
    (feed k s1 (wire k (k.REPORT_SUPER :: k.REPORT_SUPER_PRIMARY_TIME :: f))).m_primary_time
      = (feed k s2
          (wire k (k.REPORT_SUPER :: k.REPORT_SUPER_PRIMARY_TIME :: f))).m_primary_time := by
  have hlen : (k.REPORT_SUPER :: k.REPORT_SUPER_PRIMARY_TIME :: f).length ≤ k.MAX_DATA := by
    simp only [List.length_cons]; omega
  have r1 := raw_data_fed k s1 k.REPORT_SUPER (k.REPORT_SUPER_PRIMARY_TIME :: f)
    hb1 hlen
  have r2 := raw_data_fed k s2 k.REPORT_SUPER (k.REPORT_SUPER_PRIMARY_TIME :: f)
    hb2 hlen
  rw [feed_wire k s1 _ _ hde hs1 hsd hse, feed_wire k s2 _ _ hde hs2 hsd hse]
  apply primary_time_congr k _ _ hlab
  · intro i hi
    rw [r1 i (by simp only [List.length_cons]; omega),
      r2 i (by simp only [List.length_cons]; omega)]
  · exact r2 0 (by simp)
  · exact r2 1 (by simp)

set_option maxRecDepth 100000 in
/-- C14, witness: the full primary-time frame fed to a freshly constructed object and
to the object that has already taken in the short frame. -/
theorem primary_time_from_last_frame_witness :
    (feed thunderbolt (tsip thunderbolt)
      (wire thunderbolt (thunderbolt.REPORT_SUPER :: thunderbolt.REPORT_SUPER_PRIMARY_TIME ::
        [0, 0, 0, 100, 7, 208, 0, 18, 0, 45, 30, 12, 15, 6, 7, 232]))).m_primary_time
      = (feed thunderbolt
          (feed thunderbolt (tsip thunderbolt) (wire thunderbolt short_primary_time_frame))
          (wire thunderbolt (thunderbolt.REPORT_SUPER :: thunderbolt.REPORT_SUPER_PRIMARY_TIME ::
            [0, 0, 0, 100, 7, 208, 0, 18, 0, 45, 30, 12, 15, 6, 7, 232]))).m_primary_time :=
  primary_time_from_last_frame thunderbolt (tsip thunderbolt)
    (feed thunderbolt (tsip thunderbolt) (wire thunderbolt short_primary_time_frame))
    [0, 0, 0, 100, 7, 208, 0, 18, 0, 45, 30, 12, 15, 6, 7, 232]
    (by decide) (by decide) (by decide) (by decide) rfl (by decide)
    (by simp [tsip, init_rpt]) (by decide) (by decide) (by decide)

set_option maxRecDepth 100000 in
/-- C16. The code on a payload of 132 bytes that begins `8f ac`, fed to a freshly
constructed object with a 128-byte buffer: up to the closing `DLE` the framer stores
the first 128 bytes and drops the rest; the call on the final `ETX` dispatches the
truncated buffer as a secondary-time frame and runs into the out-of-bounds store of
`b4_to_single`: the frame does not complete with a defined return value. -/
theorem overlong_secondary_time_frame_undefined :
    thunderbolt.MAX_DATA < long_secondary_time_payload.length ∧
    long_secondary_time_payload.head? ≠ some thunderbolt.DLE ∧
    long_secondary_time_payload.head? ≠ some thunderbolt.ETX ∧
    (feed thunderbolt (tsip thunderbolt)
      (thunderbolt.DLE :: (stuff thunderbolt long_secondary_time_payload
        ++ [thunderbolt.DLE]))).m_report_length = thunderbolt.MAX_DATA ∧
    (feed thunderbolt (tsip thunderbolt)
      (thunderbolt.DLE :: (stuff thunderbolt long_secondary_time_payload
        ++ [thunderbolt.DLE]))).m_report = long_secondary_time_payload.take thunderbolt.MAX_DATA ∧
    (faults thunderbolt (tsip thunderbolt)
      (wire thunderbolt long_secondary_time_payload)).getLast? = some true := by
  decide

set_option maxRecDepth 100000 in
/-- C17. The code on `DLE DLE` followed by a secondary-time frame, fed to a freshly
constructed object: the doubled escape leaves the object as it was, but the call that
completes the frame runs into the out-of-bounds store of `b4_to_single`, with the
prefix and without it: in neither run is there a defined final return value or final
state to compare. -/
theorem resync_secondary_time_frame_undefined :
    (tsip thunderbolt).m_state = .START ∧
    feed thunderbolt (tsip thunderbolt) [thunderbolt.DLE, thunderbolt.DLE]
      = tsip thunderbolt ∧
    (faults thunderbolt (tsip thunderbolt)
      ([thunderbolt.DLE, thunderbolt.DLE]
        ++ wire thunderbolt secondary_time_payload)).getLast? = some true ∧
    (faults thunderbolt (tsip thunderbolt)
      (wire thunderbolt secondary_time_payload)).getLast? = some true := by
  decide

set_option maxRecDepth 100000 in
/-- C19. The code on `ETX` arriving in `DATA_DLE` with a secondary-time frame in the
buffer: `update_report` reaches `case REPORT_SUPER_SECONDARY_TIME` and its first
`b4_to_single` stores past the end of its local union, so neither `update_report` nor
the call of `encode` has a defined return value. -/
theorem dispatch_undefined_on_secondary_time :
    secondary_time_loaded.m_state = .DATA_DLE ∧
    secondary_time_frame thunderbolt secondary_time_loaded ∧
    (b4_to_single_union thunderbolt secondary_time_loaded 15 'e').assigned = [4, 3, 2, 1] ∧
    (b4_to_single_union thunderbolt secondary_time_loaded 15 'e').overrun = true ∧
    (update_report thunderbolt secondary_time_loaded).undefined = true ∧
    (encode thunderbolt secondary_time_loaded thunderbolt.ETX).undefined = true := by
  decide

/-- C20. No record changes without a completed frame: unless `m_state` is `DATA_DLE`
and the byte is `ETX`, `encode` changes at most `m_state`, `m_report_length` and the
frame buffer; every report record, every valid flag and the updated-flag set are as
before. -/
theorem no_record_change_without_frame (k : Env) (s : State) (c : Nat)
    (h : ¬ (s.m_state = .DATA_DLE ∧ c = k.ETX)) :
    (encode k s c).state
      = { s with m_state := (encode k s c).state.m_state,
                 m_report_length := (encode k s c).state.m_report_length,
                 m_report := (encode k s c).state.m_report } ∧
    (encode k s c).state.m_updated = s.m_updated ∧
    valid_le s (encode k s c).state ∧ valid_le (encode k s c).state s := by
  have key : (encode k s c).state
      = { s with m_state := (encode k s c).state.m_state,
                 m_report_length := (encode k s c).state.m_report_length,
                 m_report := (encode k s c).state.m_report } := by
    cases hm : s.m_state with
    | START => simp only [encode, hm]; split <;> rfl
    | FRAME => simp only [encode, hm]; split <;> rfl
    | DATA =>
      simp only [encode, hm]
      split
      · rfl
      · split <;> rfl
    | DATA_DLE =>
      have hc : ¬ c = k.ETX := fun hc => h ⟨hm, hc⟩
      simp only [encode, hm, hc, if_false]
      split
      · split <;> rfl
      · rfl
    | invalid n => simp only [encode, hm]
  refine ⟨key, by rw [key], ?_, ?_⟩
  · rw [key]; unfold valid_le; simp
  · rw [key]; unfold valid_le; simp

set_option maxRecDepth 100000 in
/-- C20, witness: the byte `42` arriving in `DATA`. -/
theorem no_record_change_without_frame_witness :
    (encode thunderbolt in_data 0x42).state
      = { in_data with m_state := (encode thunderbolt in_data 0x42).state.m_state,
                       m_report_length := (encode thunderbolt in_data 0x42).state.m_report_length,
                       m_report := (encode thunderbolt in_data 0x42).state.m_report } ∧
    (encode thunderbolt in_data 0x42).state.m_updated = in_data.m_updated ∧
    valid_le in_data (encode thunderbolt in_data 0x42).state ∧
    valid_le (encode thunderbolt in_data 0x42).state in_data :=
  no_record_change_without_frame thunderbolt in_data 0x42 (by decide)

end Tsip
